import Mathlib

/-!
Verification development for the batch video editor's core:
the FFmpeg command builder (`core/ffmpeg_builder_python.py`), the
splitter (`core/ffmpeg_splitter.py`), the worker (`core/worker.py`),
the queue manager (`core/queue_manager.py`) and the task data model
(`models/video_task.py`).

Python floats are modelled as rationals (`ℚ`), paths and other strings
as `String`, Python `dict`-based settings as structures whose fields
mirror the keys read via `dict.get` (with the source's defaults), and
the filesystem / subprocess / RNG environment as an explicit `Env`
record of functions.  The ffmpeg-python stream graph is modelled by the
inductive `SExpr`; `ffmpeg.compile` is deterministic in that graph, so
a built command is represented by the graph plus output options.
-/

namespace BatchVideoEditor

/-! ## Enums (`models/enums.py`) -/

/-- `TaskStatus` from `models/enums.py`. -/
inductive TaskStatus where
  | pending
  | processing
  | done
  | error
  | cancelled
deriving DecidableEq, Repr

/-- `VideoCodec` from `models/enums.py`. -/
inductive VideoCodec where
  | h264
  | hevc
  | h264_nvenc
  | hevc_nvenc
deriving DecidableEq, Repr

/-- `VideoCodec.value`: the ffmpeg encoder name. -/
def VideoCodec.value : VideoCodec → String
  | .h264 => "libx264"
  | .hevc => "libx265"
  | .h264_nvenc => "h264_nvenc"
  | .hevc_nvenc => "hevc_nvenc"

/-- `VideoCodec.is_gpu`: `"nvenc" in self.value`. -/
def VideoCodec.is_gpu : VideoCodec → Bool
  | .h264 => false
  | .hevc => false
  | .h264_nvenc => true
  | .hevc_nvenc => true

/-- `QualityMode` from `models/enums.py`. -/
inductive QualityMode where
  | crf
  | bitrate
deriving DecidableEq, Repr

/-- `WatermarkType` from `models/enums.py`. -/
inductive WatermarkType where
  | none
  | text
  | image
deriving DecidableEq, Repr

/-- `TextPosition` from `models/enums.py`. -/
inductive TextPosition where
  | top_left
  | top_right
  | bottom_left
  | bottom_right
  | center
  | custom
deriving DecidableEq, Repr

/-- `OverlayPosition` from `models/enums.py`. -/
inductive OverlayPosition where
  | top_left
  | top_right
  | bottom_left
  | bottom_right
  | center
  | custom
deriving DecidableEq, Repr

/-- `SplitMode` from `models/enums.py`. -/
inductive SplitMode where
  | disabled
  | by_count
  | by_duration
deriving DecidableEq, Repr
/-! ## String helpers

Structural (fuel-free) re-implementations of the Python string
operations the source uses, over `List Char`, so that concrete
instances evaluate. -/

/-- Split a character list on a separator character. -/
def splitOnChar (sep : Char) : List Char → List (List Char)
  | [] => [[]]
  | c :: rest =>
    match splitOnChar sep rest with
    | [] => [[]]
    | g :: gs => if c = sep then [] :: g :: gs else (c :: g) :: gs

/-- `str.replace(pat, repl)` (all non-overlapping occurrences, left to
right); the fuel argument is the length of the remaining input. -/
def replaceAux (pat repl : List Char) : Nat → List Char → List Char
  | 0, l => l
  | _ + 1, [] => []
  | fuel + 1, c :: rest =>
    if pat ≠ [] ∧ pat.isPrefixOf (c :: rest) then
      repl ++ replaceAux pat repl fuel ((c :: rest).drop pat.length)
    else c :: replaceAux pat repl fuel rest

/-- `str.replace(pat, repl)` on strings. -/
def strReplace (s pat repl : String) : String :=
  String.mk (replaceAux pat.toList repl.toList s.toList.length s.toList)

/-- `pat in s` substring test. -/
def strContainsAux (pat : List Char) : List Char → Bool
  | [] => pat.isPrefixOf []
  | c :: rest => pat.isPrefixOf (c :: rest) || strContainsAux pat rest

/-- `pat in s` substring test on strings. -/
def strContains (s pat : String) : Bool := strContainsAux pat.toList s.toList

/-- `str.startswith(pre)`. -/
def strStartsWith (s pre : String) : Bool := pre.toList.isPrefixOf s.toList

/-- `str.endswith(suf)`. -/
def strEndsWith (s suf : String) : Bool := suf.toList.reverse.isPrefixOf s.toList.reverse

/-- `str.strip()`. -/
def pyStrip (s : String) : String :=
  String.mk (((s.toList.dropWhile Char.isWhitespace).reverse.dropWhile
    Char.isWhitespace).reverse)

/-- `str.lower()`. -/
def strToLower (s : String) : String := String.mk (s.toList.map Char.toLower)

/-- `sep.join(parts)`. -/
def joinWith (sep : String) : List String → String
  | [] => ""
  | [x] => x
  | x :: y :: xs => x ++ sep ++ joinWith sep (y :: xs)

/-- The components of a path string split on `/`. -/
def pathComponents (p : String) : List String :=
  (splitOnChar '/' p.toList).map String.mk


/-! ## Settings records

The image/video/intro/outro overlay specs are Python dicts accessed via
`get(key, default)`; fields below carry those defaults.  `Option`
encodes a key that may be absent / `None`. -/

/-- One media-overlay spec dict (image/video/intro/outro). -/
structure OverlaySettings where
  enabled : Bool := false
  file_path : Option String := none
  scale_width : Option Int := none
  scale_height : Option Int := none
  opacity : ℚ := 1
  position : OverlayPosition := .top_right
  custom_x : Int := 10
  custom_y : Int := 10
  start_time : ℚ := 0
  duration : Option ℚ := none
  loop : Bool := false
  fade_duration : ℚ := 0
deriving DecidableEq, Repr

/-- Stacking spec dict produced by the stacking panel:
`mode` in "hstack"/"vstack", `type` in "file"/"folder", `path`.
An absent `mode` key is modelled by the empty string (falsy). -/
structure StackSettings where
  mode : String := ""
  type : String := "file"
  path : String := ""
deriving DecidableEq, Repr

/-- Background-frame spec dict. -/
structure BackgroundFrame where
  enabled : Bool := false
  resolution : Int × Int := (1920, 1080)
  background_type : String := "color"
  background_color : String := "#000000"
  background_path : Option String := none
deriving DecidableEq, Repr

/-- `TextSettings` from `models/text_settings.py`. -/
structure TextSettings where
  enabled : Bool := false
  text : String := ""
  font_family : String := ""
  font_path : Option String := none
  font_size : Int := 48
  font_color : String := "#FFFFFF"
  outline_color : String := "#000000"
  outline_thickness : Int := 2
  bold : Bool := false
  italic : Bool := false
  underline : Bool := false
  position_preset : TextPosition := .top_left
  position_x : Int := 10
  position_y : Int := 10
  box_enabled : Bool := false
  box_color : String := "#000000"
  box_opacity : ℚ := 1/2
deriving DecidableEq, Repr

/-- `TextSettings.is_active`: `self.enabled and bool(self.text.strip())`. -/
def TextSettings.is_active (ts : TextSettings) : Bool :=
  ts.enabled && ts.text.trim ≠ ""

/-- `SplitSettings` from `models/split_settings.py`. -/
structure SplitSettings where
  enabled : Bool := false
  mode : SplitMode := .disabled
  num_parts : Int := 2
  duration_seconds : ℚ := 300
  output_pattern : String := "{name}_part{num:03d}{ext}"
  use_stream_copy : Bool := true
  keyframe_accurate : Bool := true
  process_split_parts : Bool := false
deriving DecidableEq, Repr

/-! ## The task (`models/video_task.py`)

`stack_settings`, `background_frame`, `split_settings`,
`use_gpu_decoding` and `intermediate_file` are attributes the UI layer
sets on task instances; they are fields here. -/

/-- `VideoTask` from `models/video_task.py`. -/
structure VideoTask where
  input_path : String
  output_path : String
  status : TaskStatus := .pending
  progress : ℚ := 0
  error_message : String := ""
  speed : ℚ := 1
  volume : ℚ := 1
  trim_start : Option ℚ := none
  trim_end : Option ℚ := none
  cut_from_end : Option ℚ := none
  scale : Option (Int × Int) := none
  crop : Option (Int × Int × Int × Int) := none
  watermark_type : WatermarkType := .none
  watermark_text : String := ""
  watermark_image : Option String := none
  watermark_position : Int × Int := (10, 10)
  subtitle_file : Option String := none
  text_settings : Option TextSettings := none
  image_overlay : Option OverlaySettings := none
  video_overlay : Option OverlaySettings := none
  intro_video : Option OverlaySettings := none
  outro_video : Option OverlaySettings := none
  codec : VideoCodec := .h264
  quality_mode : QualityMode := .crf
  crf : Int := 23
  bitrate : String := "5M"
  preset : String := "medium"
  duration : ℚ := 0
  original_resolution : Option (Int × Int) := none
  stack_settings : Option StackSettings := none
  background_frame : Option BackgroundFrame := none
  split_settings : Option SplitSettings := none
  use_gpu_decoding : Bool := false
  intermediate_file : Option String := none
deriving DecidableEq, Repr

/-- `VideoTask.is_processing`. -/
def VideoTask.is_processing (t : VideoTask) : Bool :=
  t.status = .processing

/-- `VideoTask.reset`. -/
def VideoTask.reset (t : VideoTask) : VideoTask :=
  { t with status := .pending, progress := 0, error_message := "" }

/-- `VideoTask.set_error`. -/
def VideoTask.set_error (t : VideoTask) (msg : String) : VideoTask :=
  { t with status := .error, error_message := msg, progress := 0 }

/-- `VideoTask.set_processing`. -/
def VideoTask.set_processing (t : VideoTask) : VideoTask :=
  { t with status := .processing, progress := 0, error_message := "" }

/-- `VideoTask.set_done`. -/
def VideoTask.set_done (t : VideoTask) : VideoTask :=
  { t with status := .done, progress := 100, error_message := "" }

/-- `VideoTask.set_cancelled` (note: does not touch `progress`). -/
def VideoTask.set_cancelled (t : VideoTask) : VideoTask :=
  { t with status := .cancelled, error_message := "Cancelled by user" }

/-! ## Python truthiness helpers -/

/-- Truthiness of an optional float: `None` and `0.0` are falsy. -/
def qTruthy : Option ℚ → Bool
  | none => false
  | some v => v ≠ 0

/-- Truthiness of an optional int: `None` and `0` are falsy. -/
def iTruthy : Option Int → Bool
  | none => false
  | some v => v ≠ 0

/-- Truthiness of an optional string: `None` and `""` are falsy. -/
def sTruthy : Option String → Bool
  | none => false
  | some s => s ≠ ""

/-- `o.get!`-style value extraction with a default of `0`. -/
def qVal (o : Option ℚ) : ℚ := o.getD 0


/-! ## Environment

All ambient effects the builder / splitter / worker consult: path
existence, directory listing, `random.choice` (indexed by how many
random draws happened before), `get_video_info` duration probing,
`get_default_font`, subprocess exit codes and captured stderr. -/

/-- The ambient filesystem / process / RNG environment. -/
structure Env where
  path_exists : String → Bool
  listdir : String → List String
  rand_choice : Nat → List String → String
  probe_duration : String → Option ℚ
  default_font : Option String
  run_exit_code : List String → Int
  run_stderr : List String → String

/-! ## ffmpeg-python stream graph -/

/-- A keyword/positional argument value in a filter or i/o option. -/
inductive KwVal where
  | str (s : String)
  | int (n : Int)
  | num (q : ℚ)
deriving DecidableEq, Repr

/-- An ffmpeg-python stream expression.  `concat2`/`concat3` are the
2- and 3-segment `ffmpeg.concat(..., v=1, a=1)` nodes; `idx` selects
`joined.node[idx]` (0 = video out, 1 = audio out).  `concat_files` is
the video-only concat of plain file inputs used by folder stacking. -/
inductive SExpr where
  | vinput (path : String) (kw : List (String × KwVal))
  | ainput (path : String) (kw : List (String × KwVal))
  | lavfi (desc : String)
  | filt (name : String) (args : List KwVal) (kwargs : List (String × KwVal)) (s : SExpr)
  | overlayed (bg fg : SExpr) (kwargs : List (String × KwVal))
  | concat2 (v1 a1 v2 a2 : SExpr) (idx : Nat)
  | concat3 (v1 a1 v2 a2 v3 a3 : SExpr) (idx : Nat)
  | concat_files (paths : List String)
  | hstacked (a b : SExpr)
  | vstacked (a b : SExpr)
deriving DecidableEq, Repr

/-- The compiled command, represented by its deterministic inputs:
the final video and audio stream graphs, the output path and the
output keyword options (in Python dict insertion order). -/
structure BuiltCommand where
  video_stream : SExpr
  audio_stream : SExpr
  out_path : String
  output_kwargs : List (String × KwVal)
  overwrite : Bool
deriving DecidableEq, Repr

/-- Names of the filters of a linear filter chain, innermost
(first-applied) first. -/
def chainNames : SExpr → List String
  | .filt n _ _ s => chainNames s ++ [n]
  | _ => []

/-- Whether the stream named `n` was used somewhere in producing this
stream.  For a concat node only the streams feeding the selected
output (video components for `idx = 0`, audio for `idx = 1`) count. -/
def usesFilter (n : String) : SExpr → Bool
  | .vinput _ _ => false
  | .ainput _ _ => false
  | .lavfi _ => false
  | .concat_files _ => false
  | .filt m _ _ s => m = n || usesFilter n s
  | .overlayed a b _ => usesFilter n a || usesFilter n b
  | .concat2 v1 _ v2 _ 0 => usesFilter n v1 || usesFilter n v2
  | .concat2 _ a1 _ a2 _ => usesFilter n a1 || usesFilter n a2
  | .concat3 v1 _ v2 _ v3 _ 0 => usesFilter n v1 || usesFilter n v2 || usesFilter n v3
  | .concat3 _ a1 _ a2 _ a3 _ => usesFilter n a1 || usesFilter n a2 || usesFilter n a3
  | .hstacked a b => usesFilter n a || usesFilter n b
  | .vstacked a b => usesFilter n a || usesFilter n b

/-! ## Audio filters (`FFmpegPythonBuilder._apply_audio_filters`)

The two `while` loops of the source
(`while speed > 2.0: emit atempo=2.0; speed /= 2.0` then
`while speed < 0.5: emit atempo=0.5; speed /= 0.5`, then one remainder
`atempo=speed` if `speed != 1.0`) are a single tail recursion: once
`speed ≤ 2` holds it stays true (doubling a value below 1/2 keeps it
below 1), and once `speed ≥ 1/2` holds it stays true under halving of a
value above 2, so the two loops never re-interleave.  `fuel` bounds the
number of iterations; `atempo_fuel` below always suffices. -/

/-- One step of the atempo decomposition loops, with explicit fuel;
when the fuel is exhausted the loops are done and only the final
remainder check remains (with sufficient fuel the loop branches are
never reached at fuel 0). -/
def atempoChain : Nat → ℚ → List ℚ
  | 0, speed => if speed ≠ 1 then [speed] else []
  | fuel + 1, speed =>
    if 2 < speed then 2 :: atempoChain fuel (speed / 2)
    else if speed < 1/2 then (1/2 : ℚ) :: atempoChain fuel (speed / (1/2))
    else if speed ≠ 1 then [speed] else []

/-- Enough fuel for the loops to run to completion on `s`. -/
def atempo_fuel (s : ℚ) : Nat := s.num.natAbs + s.den

/-- The `atempo` stage factors emitted for a given speed, in emission
order. -/
def audio_speed_stages (s : ℚ) : List ℚ := atempoChain (atempo_fuel s) s

/-- `FFmpegPythonBuilder._apply_audio_filters`: volume, then the
atempo stages. -/
def apply_audio_filters (t : VideoTask) (s : SExpr) : SExpr :=
  let s := if t.volume ≠ 1 then .filt "volume" [.num t.volume] [] s else s
  if t.speed ≠ 1 then
    (audio_speed_stages t.speed).foldl (fun acc v => .filt "atempo" [.num v] [] acc) s
  else s

/-! ## Video filters (`FFmpegPythonBuilder._apply_video_filters`)

The source applies, in order: scale, crop, setpts (speed), drawtext
(advanced text overlay, unless skipped), subtitles. -/

/-- `str(pts_multiplier) + "*PTS"` for the setpts filter. -/
def setptsArg (speed : ℚ) : String := toString (1 / speed) ++ "*PTS"

/-- Path escaping for the subtitles filter:
`str(path).replace("\\", "/").replace(":", "\\:")`. -/
def escapeSubtitlePath (p : String) : String :=
  strReplace (strReplace p "\\" "/") ":" "\\:"

/-- Font path escaping in `_get_drawtext_args`: separators to forward
slashes, then the drive-letter colon escaped. -/
def escapeFontPath (p : String) : String :=
  let s := strReplace p "\\" "/"
  match s.toList with
  | c1 :: ':' :: rest => String.mk (c1 :: '\\' :: ':' :: rest)
  | _ => s

/-- `str.lstrip("#")`. -/
def stripHash (s : String) : String :=
  String.mk (s.toList.dropWhile (· = '#'))

/-- Python `int()` truncation (toward zero) of a rational. -/
def pyInt (q : ℚ) : Int := Int.tdiv q.num q.den

/-- `TextSettings.get_position_coords`. -/
def TextSettings.get_position_coords (ts : TextSettings) (vw vh : Int) : Int × Int :=
  if ts.position_preset = .custom then (ts.position_x, ts.position_y)
  else
    let tlines := splitOnChar '\n' ts.text.toList
    let text_width : ℚ := ((tlines.headD []).length : ℚ) * (ts.font_size : ℚ) * (6/10)
    let text_height : ℚ := (ts.font_size : ℚ) * (tlines.length : ℚ)
    let margin : Int := 10
    match ts.position_preset with
    | .top_left => (margin, margin)
    | .top_right => (pyInt ((vw : ℚ) - text_width - margin), margin)
    | .bottom_left => (margin, pyInt ((vh : ℚ) - text_height - margin))
    | .bottom_right =>
        (pyInt ((vw : ℚ) - text_width - margin), pyInt ((vh : ℚ) - text_height - margin))
    | .center =>
        (pyInt (((vw : ℚ) - text_width) / 2), pyInt (((vh : ℚ) - text_height) / 2))
    | .custom => (ts.position_x, ts.position_y)

/-- `FFmpegPythonBuilder._get_drawtext_args`.  Returns `none` when the
text is blank (the source returns `None`). -/
def get_drawtext_args (env : Env) (ts : TextSettings) (t : VideoTask) :
    Option (List (String × KwVal)) :=
  if pyStrip ts.text = "" then none
  else
    let args := [("text", KwVal.str ts.text)]
    -- resolve the font: fall back to the default font when unset/missing
    let fp : Option String :=
      if ¬ sTruthy ts.font_path || ¬ env.path_exists (ts.font_path.getD "") then
        env.default_font
      else ts.font_path
    let args := args ++
      (match fp with
       | some p => if p ≠ "" ∧ env.path_exists p then
           [("fontfile", KwVal.str (escapeFontPath p))] else []
       | none => [])
    let args := args ++ [("fontsize", KwVal.int ts.font_size),
      ("fontcolor", KwVal.str ("0x" ++ stripHash ts.font_color))]
    let vwvh := t.original_resolution.getD (1920, 1080)
    let xy := ts.get_position_coords vwvh.1 vwvh.2
    let args := args ++ [("x", KwVal.int xy.1), ("y", KwVal.int xy.2)]
    let args := args ++
      (if 0 < ts.outline_thickness then
        [("bordercolor", KwVal.str ("0x" ++ stripHash ts.outline_color)),
         ("borderw", KwVal.int ts.outline_thickness)] else [])
    let args := args ++
      (if ts.box_enabled then
        [("box", KwVal.int 1),
         ("boxcolor", KwVal.str ("0x" ++ stripHash ts.box_color ++ "@" ++ toString ts.box_opacity))]
       else [])
    some args

/-- Scale step of `_apply_video_filters`. -/
def scaleStage (t : VideoTask) (s : SExpr) : SExpr :=
  match t.scale with
  | some (w, h) =>
      if t.codec.is_gpu then .filt "scale_cuda" [.int w, .int h] [] s
      else .filt "scale" [.int w, .int h] [] s
  | none => s

/-- Crop step of `_apply_video_filters`. -/
def cropStage (t : VideoTask) (s : SExpr) : SExpr :=
  match t.crop with
  | some (x, y, w, h) => .filt "crop" [.int w, .int h, .int x, .int y] [] s
  | none => s

/-- Speed (`setpts`) step of `_apply_video_filters`. -/
def speedStage (t : VideoTask) (s : SExpr) : SExpr :=
  if t.speed ≠ 1 then .filt "setpts" [.str (setptsArg t.speed)] [] s else s

/-- Drawtext step of `_apply_video_filters`. -/
def textStage (env : Env) (t : VideoTask) (skip_text : Bool) (s : SExpr) : SExpr :=
  if ¬ skip_text then
    match t.text_settings with
    | some ts =>
        if ts.is_active then
          match get_drawtext_args env ts t with
          | some args => .filt "drawtext" [] args s
          | none => s
        else s
    | none => s
  else s

/-- Subtitle burn-in step of `_apply_video_filters`. -/
def subtitleStage (t : VideoTask) (s : SExpr) : SExpr :=
  match t.subtitle_file with
  | some p => .filt "subtitles" [.str (escapeSubtitlePath p)] [] s
  | none => s

/-- `FFmpegPythonBuilder._apply_video_filters`: the sequential body of
the source function as a composition of its five steps. -/
def apply_video_filters (env : Env) (t : VideoTask) (skip_text : Bool) (s : SExpr) : SExpr :=
  subtitleStage t (textStage env t skip_text (speedStage t (cropStage t (scaleStage t s))))

/-! ## Input and output options -/

/-- Input options of `_build_standard` / `_build_with_overlay`:
optional `hwaccel`, `-ss` when `trim_start is not None`, `-to` from
`cut_from_end` (when `duration > 0`) else from `trim_end`. -/
def input_kwargs (t : VideoTask) : List (String × KwVal) :=
  (if t.use_gpu_decoding ∧ t.codec.is_gpu then [("hwaccel", KwVal.str "cuda")] else [])
  ++ (match t.trim_start with
      | some v => [("ss", KwVal.num v)]
      | none => [])
  ++ (if t.cut_from_end.isSome ∧ 0 < t.duration then
        [("to", KwVal.num (max 0 (t.duration - qVal t.cut_from_end)))]
      else match t.trim_end with
      | some v => [("to", KwVal.num v)]
      | none => [])

/-- `FFmpegPythonBuilder._get_output_kwargs`, in dict insertion order. -/
def get_output_kwargs (t : VideoTask) : List (String × KwVal) :=
  [("vcodec", KwVal.str t.codec.value)]
  ++ (if t.quality_mode = .crf then
        [((if t.codec.is_gpu then "cq" else "crf"), KwVal.int t.crf)]
      else [("video_bitrate", KwVal.str t.bitrate)])
  ++ [("preset", KwVal.str t.preset)]
  ++ (if t.volume ≠ 1 ∨ t.speed ≠ 1 then
        [("acodec", KwVal.str "aac"), ("audio_bitrate", KwVal.str "192k")]
      else [("acodec", KwVal.str "copy")])
  ++ [("progress", KwVal.str "pipe:1")]

/-- Python dict assignment `d[k] = v` on an insertion-ordered
association list: overwrite in place, or append when new. -/
def setKw (l : List (String × KwVal)) (k : String) (v : KwVal) : List (String × KwVal) :=
  if l.any (fun p => p.1 = k) then l.map (fun p => if p.1 = k then (k, v) else p)
  else l ++ [(k, v)]

/-- Lookup in an insertion-ordered association list. -/
def lookupKw (l : List (String × KwVal)) (k : String) : Option KwVal :=
  (l.find? (fun p => p.1 = k)).map Prod.snd

/-! ## Dispatch and shared duration arithmetic -/

/-- Truthiness of an overlay-settings dict and its `enabled` key. -/
def ovEnabled : Option OverlaySettings → Bool
  | some s => s.enabled
  | none => false

/-- Truthiness of the background-frame dict and its `enabled` key. -/
def bgEnabled : Option BackgroundFrame → Bool
  | some s => s.enabled
  | none => false

/-- `task.stack_settings and task.stack_settings.get('mode')`. -/
def stackActive (t : VideoTask) : Bool :=
  match t.stack_settings with
  | some ss => ss.mode ≠ ""
  | none => false

/-- `FFmpegPythonBuilder._needs_overlay`. -/
def needs_overlay (t : VideoTask) : Bool :=
  ovEnabled t.image_overlay || ovEnabled t.video_overlay ||
  ovEnabled t.intro_video || ovEnabled t.outro_video ||
  stackActive t || bgEnabled t.background_frame

/-- The main video's effective duration as computed (identically) in
the background-frame block, the stacking block and the output-duration
clamp of `_build_with_overlay`: the probed duration minus truthy trims,
overridden by `trim_end - trim_start` when `trim_end` is truthy. -/
def effective_duration (t : VideoTask) : ℚ :=
  let d := t.duration
  let d := if qTruthy t.cut_from_end then d - qVal t.cut_from_end else d
  let d := if qTruthy t.trim_start then d - qVal t.trim_start else d
  if qTruthy t.trim_end then
    qVal t.trim_end - (if qTruthy t.trim_start then qVal t.trim_start else 0)
  else d

/-! ## Standard pipeline (`_build_standard`) -/

/-- `FFmpegPythonBuilder._build_standard`. -/
def build_standard (env : Env) (t : VideoTask) : BuiltCommand :=
  let base := input_kwargs t
  { video_stream := apply_video_filters env t false (.vinput t.input_path base)
    audio_stream := apply_audio_filters t (.ainput t.input_path base)
    out_path := t.output_path
    output_kwargs := get_output_kwargs t
    overwrite := true }

/-! ## Complex pipeline (`_build_with_overlay`) -/

/-- `FFmpegPythonBuilder._process_overlay_stream`. -/
def process_overlay_stream (s : SExpr) (ov : OverlaySettings) : SExpr :=
  let s :=
    if iTruthy ov.scale_width || iTruthy ov.scale_height then
      let w : Int := if iTruthy ov.scale_width then ov.scale_width.getD (-1) else -1
      let h : Int := if iTruthy ov.scale_height then ov.scale_height.getD (-1) else -1
      SExpr.filt "scale" [.int w, .int h] [] s
    else s
  if ov.opacity < 1 then
    .filt "colorchannelmixer" [] [("aa", .num ov.opacity)] (.filt "format" [.str "yuva420p"] [] s)
  else s

/-- `FFmpegPythonBuilder._get_overlay_position`. -/
def get_overlay_position (ov : OverlaySettings) : String × String :=
  match ov.position with
  | .custom => (toString ov.custom_x, toString ov.custom_y)
  | .top_left => ("10", "10")
  | .top_right => ("W-w-10", "10")
  | .bottom_left => ("10", "H-h-10")
  | .bottom_right => ("W-w-10", "H-h-10")
  | .center => ("(W-w)/2", "(H-h)/2")

/-- `FFmpegPythonBuilder._get_enable_expression`. -/
def get_enable_expression (ov : OverlaySettings) : Option String :=
  if 0 < ov.start_time || qTruthy ov.duration then
    if qTruthy ov.duration then
      some ("between(t," ++ toString ov.start_time ++ ","
        ++ toString (ov.start_time + qVal ov.duration) ++ ")")
    else some ("gte(t," ++ toString ov.start_time ++ ")")
  else none

/-- The background layer built from the background-frame settings,
`none` when the type is unknown or the referenced file is missing. -/
def backgroundLayer (env : Env) (t : VideoTask) (bf : BackgroundFrame) : Option SExpr :=
  let tw := bf.resolution.1
  let th := bf.resolution.2
  let bgDur := max (1/10) (effective_duration t)
  if bf.background_type = "color" then
    let c := if strStartsWith bf.background_color "#" then "0x" ++ stripHash bf.background_color
             else bf.background_color
    some (.lavfi ("color=c=" ++ c ++ ":s=" ++ toString tw ++ "x" ++ toString th
      ++ ":d=" ++ toString bgDur))
  else if bf.background_type = "image" then
    match bf.background_path with
    | some p =>
        if p ≠ "" ∧ env.path_exists p then
          some (.filt "crop" [.int tw, .int th, .str "(iw-ow)/2", .str "(ih-oh)/2"] []
            (.filt "scale" [.int tw, .int th] [("force_original_aspect_ratio", .str "increase")]
              (.vinput p [("loop", .int 1), ("t", .num bgDur)])))
        else none
    | none => none
  else if bf.background_type = "video" then
    match bf.background_path with
    | some p =>
        if p ≠ "" ∧ env.path_exists p then
          some (.filt "crop" [.int tw, .int th, .str "(iw-ow)/2", .str "(ih-oh)/2"] []
            (.filt "scale" [.int tw, .int th] [("force_original_aspect_ratio", .str "increase")]
              (.vinput p [("stream_loop", .int (-1))])))
        else none
    | none => none
  else none

/-- The background-frame block of `_build_with_overlay`: scale the
main video by the orientation-aware rule and overlay it centered on
the background layer. -/
def backgroundStage (env : Env) (t : VideoTask) (v : SExpr) : SExpr :=
  match t.background_frame with
  | some bf =>
      if bf.enabled then
        match backgroundLayer env t bf with
        | some bl =>
            let tw := bf.resolution.1
            let th := bf.resolution.2
            let vwvh := t.original_resolution.getD (1920, 1080)
            let video_aspect : ℚ := if 0 < vwvh.2 then (vwvh.1 : ℚ) / (vwvh.2 : ℚ) else 1
            let bg_aspect : ℚ := if 0 < th then (tw : ℚ) / (th : ℚ) else 1
            let scaled :=
              if video_aspect < 1 ∧ 1 < bg_aspect then
                SExpr.filt "scale" [.int (-1), .int th] [] v
              else if 1 < video_aspect ∧ bg_aspect < 1 then
                SExpr.filt "scale" [.int tw, .int (-1)] [] v
              else
                SExpr.filt "scale" [.int tw, .int th]
                  [("force_original_aspect_ratio", .str "decrease")] v
            .overlayed bl scaled
              [("x", .str "(W-w)/2"), ("y", .str "(H-h)/2"), ("shortest", .int 1)]
        | none => v
      else v
  | none => v

/-- The filters applied to the main stream after the background block:
the full standard chain when no background frame was applied,
otherwise only drawtext and subtitles. -/
def mainVideoFilters (env : Env) (t : VideoTask) (v : SExpr) : SExpr :=
  if bgEnabled t.background_frame then subtitleStage t (textStage env t false v)
  else apply_video_filters env t false v

/-- The image-overlay block of `_build_with_overlay`. -/
def imageOverlayStage (env : Env) (t : VideoTask) (v : SExpr) : SExpr :=
  match t.image_overlay with
  | some io =>
      if io.enabled then
        match io.file_path with
        | some p =>
            if p ≠ "" ∧ env.path_exists p then
              let img := process_overlay_stream (.vinput p []) io
              let xy := get_overlay_position io
              .overlayed v img [("x", .str xy.1), ("y", .str xy.2)]
            else v
        | none => v
      else v
  | none => v

/-- The video-overlay block of `_build_with_overlay`. -/
def videoOverlayStage (env : Env) (t : VideoTask) (v : SExpr) : SExpr :=
  match t.video_overlay with
  | some vo =>
      if vo.enabled then
        match vo.file_path with
        | some p =>
            if p ≠ "" ∧ env.path_exists p then
              let kw := if vo.loop then [("stream_loop", KwVal.int (-1))] else []
              let vid := process_overlay_stream (.vinput p kw) vo
              let xy := get_overlay_position vo
              let okw := [("x", KwVal.str xy.1), ("y", KwVal.str xy.2)]
              let okw := okw ++
                (match get_enable_expression vo with
                 | some e => [("enable", KwVal.str e)]
                 | none => [])
              let okw := okw ++ (if vo.loop then [("shortest", KwVal.int 1)] else [])
              .overlayed v vid okw
            else v
        | none => v
      else v
  | none => v

/-- Target resolution for intro/outro scaling:
`task.scale or task.original_resolution or (1920, 1080)`. -/
def introTargetRes (t : VideoTask) : Int × Int :=
  t.scale.getD (t.original_resolution.getD (1920, 1080))

/-- The intro block: scaled, SAR-normalized, optionally faded-in
video/audio streams of the intro file. -/
def introStreams (env : Env) (t : VideoTask) : Option (SExpr × SExpr) :=
  match t.intro_video with
  | some io =>
      if io.enabled then
        match io.file_path with
        | some p =>
            if p ≠ "" ∧ env.path_exists p then
              let wh := introTargetRes t
              let iv := SExpr.filt "setsar" [.int 1] []
                (.filt "scale" [.int wh.1, .int wh.2] [] (.vinput p []))
              let ia := SExpr.ainput p []
              if 0 < io.fade_duration then
                some (.filt "fade" []
                        [("type", .str "in"), ("start_time", .int 0),
                         ("duration", .num io.fade_duration)] iv,
                      .filt "afade" []
                        [("type", .str "in"), ("start_time", .int 0),
                         ("duration", .num io.fade_duration)] ia)
              else some (iv, ia)
            else none
        | none => none
      else none
  | none => none

/-- The outro block (same processing as the intro block). -/
def outroStreams (env : Env) (t : VideoTask) : Option (SExpr × SExpr) :=
  match t.outro_video with
  | some oo =>
      if oo.enabled then
        match oo.file_path with
        | some p =>
            if p ≠ "" ∧ env.path_exists p then
              let wh := introTargetRes t
              let ov := SExpr.filt "setsar" [.int 1] []
                (.filt "scale" [.int wh.1, .int wh.2] [] (.vinput p []))
              let oa := SExpr.ainput p []
              if 0 < oo.fade_duration then
                some (.filt "fade" []
                        [("type", .str "in"), ("start_time", .int 0),
                         ("duration", .num oo.fade_duration)] ov,
                      .filt "afade" []
                        [("type", .str "in"), ("start_time", .int 0),
                         ("duration", .num oo.fade_duration)] oa)
              else some (ov, oa)
            else none
        | none => none
      else none
  | none => none

/-- The concatenation block: intro → main → outro in strict order,
missing segments omitted; no concat node when neither is present. -/
def concatStage (env : Env) (t : VideoTask) (va : SExpr × SExpr) : SExpr × SExpr :=
  match introStreams env t, outroStreams env t with
  | some iv, some ov =>
      (.concat3 iv.1 iv.2 va.1 va.2 ov.1 ov.2 0, .concat3 iv.1 iv.2 va.1 va.2 ov.1 ov.2 1)
  | some iv, none => (.concat2 iv.1 iv.2 va.1 va.2 0, .concat2 iv.1 iv.2 va.1 va.2 1)
  | none, some ov => (.concat2 va.1 va.2 ov.1 ov.2 0, .concat2 va.1 va.2 ov.1 ov.2 1)
  | none, none => va

/-- Video file extensions accepted by the folder-stacking scan. -/
def video_exts : List String :=
  [".mp4", ".avi", ".mkv", ".mov", ".wmv", ".flv", ".webm", ".m4v"]

/-- `Path.suffix` of the final path component. -/
def path_suffix (f : String) : String :=
  let nm := (pathComponents f).getLastD ""
  let parts := splitOnChar '.' nm.toList
  if parts.length ≤ 1 then "" else "." ++ String.mk (parts.getLastD [])

/-- The folder-stacking selection loop: draw random files (via the
environment's RNG, indexed by draw count) until the cumulative probed
duration reaches the target or attempts are exhausted
(`len(all_files) * 2 + 10`). -/
def pickLoop (env : Env) (files : List String) (target : ℚ) :
    Nat → Nat → ℚ → List String → List String
  | 0, _, _, acc => acc.reverse
  | fuel + 1, k, cur, acc =>
    if cur < target then
      let f := env.rand_choice k files
      match env.probe_duration f with
      | some d =>
          if 0 < d then pickLoop env files target fuel (k + 1) (cur + d) (f :: acc)
          else pickLoop env files target fuel (k + 1) cur acc
      | none => pickLoop env files target fuel (k + 1) cur acc
    else acc.reverse

/-- Files selected by the folder-stacking loop. -/
def pickStackFiles (env : Env) (files : List String) (target : ℚ) : List String :=
  pickLoop env files target (files.length * 2 + 10) 0 0 []

/-- The secondary stacking source: a looped single file, or the
random concatenation assembled from a folder. -/
def stackSource (env : Env) (t : VideoTask) (ss : StackSettings) : Option SExpr :=
  if ss.type = "file" then
    if ss.path ≠ "" ∧ env.path_exists ss.path then
      some (.vinput ss.path [("stream_loop", .int (-1))])
    else none
  else if ss.type = "folder" then
    if ss.path ≠ "" ∧ env.path_exists ss.path then
      let all_files := (env.listdir ss.path).filter
        (fun f => video_exts.contains (strToLower (path_suffix f)))
      if all_files = [] then none
      else
        let target := max (1/10) (effective_duration t)
        match pickStackFiles env all_files target with
        | [] => none
        | [f] => some (.vinput f [])
        | fs => some (.concat_files fs)
    else none
  else none

/-- Main-video dimensions the stacked source is matched against:
scale or original resolution (default 1920×1080), overridden by the
crop size. -/
def stackBaseRes (t : VideoTask) : Int × Int :=
  let wh := t.scale.getD (t.original_resolution.getD (1920, 1080))
  match t.crop with
  | some c => (c.2.2.1, c.2.2.2)
  | none => wh

/-- The stacking block of `_build_with_overlay`: scale the secondary
source to match one dimension and hstack/vstack it with the main
video; the audio stream is left untouched. -/
def stackStage (env : Env) (t : VideoTask) (va : SExpr × SExpr) : SExpr × SExpr :=
  match t.stack_settings with
  | some ss =>
      if ss.mode ≠ "" then
        match stackSource env t ss with
        | some st =>
            let wh := stackBaseRes t
            if ss.mode = "hstack" then
              (.hstacked va.1 (.filt "scale" [.int (-1), .int wh.2] [] st), va.2)
            else if ss.mode = "vstack" then
              (.vstacked va.1 (.filt "scale" [.int wh.1, .int (-1)] [] st), va.2)
            else va
        | none => va
      else va
  | none => va

/-- Output options of `_build_with_overlay`: the standard output
options, `-t` clamped to the main video's effective duration when
stacking is active, then audio re-encode forced to aac/192k. -/
def overlay_output_kwargs (t : VideoTask) : List (String × KwVal) :=
  let ok := get_output_kwargs t
  let ok :=
    if stackActive t then
      if 0 < effective_duration t then setKw ok "t" (.num (effective_duration t)) else ok
    else ok
  setKw (setKw ok "acodec" (.str "aac")) "audio_bitrate" (.str "192k")

/-- `FFmpegPythonBuilder._build_with_overlay`. -/
def build_with_overlay (env : Env) (t : VideoTask) : BuiltCommand :=
  let base := input_kwargs t
  let v := backgroundStage env t (.vinput t.input_path base)
  let v := mainVideoFilters env t v
  let a := apply_audio_filters t (.ainput t.input_path base)
  let v := imageOverlayStage env t v
  let v := videoOverlayStage env t v
  let va := stackStage env t (concatStage env t (v, a))
  { video_stream := va.1
    audio_stream := va.2
    out_path := t.output_path
    output_kwargs := overlay_output_kwargs t
    overwrite := true }

/-- `FFmpegPythonBuilder.build_command`. -/
def build_command (env : Env) (t : VideoTask) : BuiltCommand :=
  if needs_overlay t then build_with_overlay env t else build_standard env t

/-! ## Validation (`FFmpegPythonBuilder.validate_task`) -/

/-- `Path(p).parent` (string model). -/
def parentDir (p : String) : String :=
  let comps := pathComponents p
  if comps.length ≤ 1 then "." else joinWith "/" comps.dropLast

/-- `task.subtitle_file and not task.subtitle_file.exists()`. -/
def subtitleMissing (env : Env) (t : VideoTask) : Bool :=
  match t.subtitle_file with
  | some p => ! env.path_exists p
  | none => false

/-- Active text settings whose set font path does not exist. -/
def fontMissing (env : Env) (t : VideoTask) : Bool :=
  match t.text_settings with
  | some ts => ts.is_active && ts.font_path.isSome && ! env.path_exists (ts.font_path.getD "")
  | none => false

/-- An enabled overlay dict whose truthy file path does not exist. -/
def overlayFileMissing (env : Env) (o : Option OverlaySettings) : Bool :=
  match o with
  | some s => s.enabled && sTruthy s.file_path && ! env.path_exists (s.file_path.getD "")
  | none => false

/-- The result of a sequence of `if cond: return (False, msg)` guards:
the first failing check wins, and the function returns `(True, "")`
only when every check passed. -/
def firstFailure : List (Bool × String) → Bool × String
  | [] => (true, "")
  | c :: rest => if c.1 then (false, c.2) else firstFailure rest

/-- The guard sequence of `FFmpegPythonBuilder.validate_task`, in
source order.  Note: unlike the legacy `FFmpegCommandBuilder`, this
builder has no check of the watermark image. -/
def validateChecks (env : Env) (t : VideoTask) : List (Bool × String) :=
  [ (! env.path_exists t.input_path,
      "Input file not found: " ++ t.input_path),
    (! env.path_exists (parentDir t.output_path),
      "Output directory not found: " ++ parentDir t.output_path),
    (subtitleMissing env t,
      "Subtitle file not found: " ++ t.subtitle_file.getD ""),
    (! decide (1/2 ≤ t.speed ∧ t.speed ≤ 2),
      "Speed must be between 0.5 and 2.0, got " ++ toString t.speed),
    (! decide (0 ≤ t.volume ∧ t.volume ≤ 2),
      "Volume must be between 0.0 and 2.0, got " ++ toString t.volume),
    (decide (t.quality_mode = .crf) && ! decide (0 ≤ t.crf ∧ t.crf ≤ 51),
      "CRF must be between 0 and 51, got " ++ toString t.crf),
    (fontMissing env t,
      "Font file not found: "
        ++ (t.text_settings.bind TextSettings.font_path).getD ""),
    (overlayFileMissing env t.image_overlay,
      "Image overlay file not found: "
        ++ (t.image_overlay.bind OverlaySettings.file_path).getD ""),
    (overlayFileMissing env t.video_overlay,
      "Video overlay file not found: "
        ++ (t.video_overlay.bind OverlaySettings.file_path).getD ""),
    (overlayFileMissing env t.intro_video,
      "Intro video file not found: "
        ++ (t.intro_video.bind OverlaySettings.file_path).getD ""),
    (overlayFileMissing env t.outro_video,
      "Outro video file not found: "
        ++ (t.outro_video.bind OverlaySettings.file_path).getD "") ]

/-- `FFmpegPythonBuilder.validate_task`. -/
def validate_task (env : Env) (t : VideoTask) : Bool × String :=
  firstFailure (validateChecks env t)

/-! ## Queue manager (`core/queue_manager.py`) -/

/-- In-place update of the `i`-th list element. -/
def listModify {α : Type} (f : α → α) : Nat → List α → List α
  | _, [] => []
  | 0, a :: as => f a :: as
  | n + 1, a :: as => a :: listModify f n as

/-- The queue manager's mutable state. -/
structure QueueState where
  tasks : List VideoTask
  is_running : Bool := false
  is_paused : Bool := false
  current_task_index : Int := -1
deriving DecidableEq, Repr

/-- `QueueManager.stop`: clear the running/paused flags, stop the
worker, and reset every currently-Processing task back to Pending. -/
def QueueState.stop (q : QueueState) : QueueState :=
  { q with
    is_running := false
    is_paused := false
    tasks := q.tasks.map (fun t => if t.is_processing then t.reset else t) }

/-- `QueueManager._process_next_task` combined with the
`task.set_processing()` call of `_start_task` (worker spawning is
outside the state model). -/
def QueueState.process_next (q : QueueState) : QueueState :=
  if q.is_paused || ! q.is_running then q
  else
    match q.tasks.findIdx? (fun t => t.status = .pending) with
    | none => { q with is_running := false }
    | some i =>
        { q with
          current_task_index := (i : Int)
          tasks := listModify VideoTask.set_processing i q.tasks }

/-- `QueueManager.start`. -/
def QueueState.start (q : QueueState) : QueueState :=
  if q.is_running then q
  else if q.tasks = [] then q
  else QueueState.process_next
    { q with is_running := true, is_paused := false, current_task_index := -1 }

/-! ## Task-state operations and the status/progress invariant -/

/-- `QueueManager._on_task_progress`: `task.progress = progress`. -/
def applyProgress (p : ℚ) (t : VideoTask) : VideoTask := { t with progress := p }

/-- The task-state operations performed by the queue manager and its
handlers: `reset` (stop/retry), `set_processing` (`_start_task`),
`set_done` (`_on_task_completed`), `set_error` (`_on_task_failed`) and
the progress tick (`_on_task_progress`). -/
inductive QOp where
  | reset (i : Nat)
  | set_processing (i : Nat)
  | set_done (i : Nat)
  | set_error (i : Nat) (msg : String)
  | progress (i : Nat) (p : ℚ)

/-- Apply one task-state operation to the task list. -/
def applyOp (ts : List VideoTask) : QOp → List VideoTask
  | .reset i => listModify VideoTask.reset i ts
  | .set_processing i => listModify VideoTask.set_processing i ts
  | .set_done i => listModify VideoTask.set_done i ts
  | .set_error i msg => listModify (fun t => t.set_error msg) i ts
  | .progress i p => listModify (applyProgress p) i ts

/-- Progress ticks are delivered by the worker the manager attached to
the task it had just set Processing, so they only ever target a
Processing task; the other operations are unrestricted. -/
def opOk (ts : List VideoTask) : QOp → Prop
  | .progress i _ =>
      match ts[i]? with
      | some t => t.status = .processing
      | none => True
  | _ => True

/-- Sequences of queue-manager task-state operations. -/
inductive StepSeq : List VideoTask → List VideoTask → Prop
  | refl (ts : List VideoTask) : StepSeq ts ts
  | step {ts us : List VideoTask} (op : QOp) :
      StepSeq ts us → opOk us op → StepSeq ts (applyOp us op)

/-- Done ⇒ progress = 100, Error ⇒ progress = 0. -/
def statusProgressInv (t : VideoTask) : Prop :=
  (t.status = .done → t.progress = 100) ∧ (t.status = .error → t.progress = 0)

/-- The invariant, for every task in the queue. -/
def queueInv (ts : List VideoTask) : Prop :=
  ∀ t ∈ ts, statusProgressInv t

/-! ## Splitter (`core/ffmpeg_splitter.py`) -/

/-- `SplitSettings.validate`. -/
def SplitSettings.validate (s : SplitSettings) : Bool × String :=
  if ! s.enabled then (true, "")
  else if s.mode = .disabled then (true, "")
  else if s.mode = .by_count ∧ s.num_parts < 2 then
    (false, "Number of parts must be at least 2")
  else if s.mode = .by_count ∧ 100 < s.num_parts then
    (false, "Number of parts cannot exceed 100")
  else if s.mode = .by_duration ∧ s.duration_seconds ≤ 0 then
    (false, "Duration must be greater than 0")
  else if s.mode = .by_duration ∧ s.duration_seconds < 1 then
    (false, "Duration must be at least 1 second")
  else if s.output_pattern = "" then
    (false, "Output pattern cannot be empty")
  else if ! strContains s.output_pattern "\x7bnum" then
    (false, "Output pattern must contain \x7bnum\x7d or \x7bnum:03d\x7d placeholder")
  else (true, "")

/-- `Path.name` (string model). -/
def fileName (p : String) : String := (pathComponents p).getLastD ""

/-- `Path.stem` (string model). -/
def path_stem (f : String) : String :=
  let nm := fileName f
  let parts := splitOnChar '.' nm.toList
  if parts.length ≤ 1 then nm else joinWith "." (parts.dropLast.map String.mk)

/-- Zero-pad to three digits (`03d`). -/
def pad3 (i : Nat) : String :=
  if i < 10 then "00" ++ toString i
  else if i < 100 then "0" ++ toString i
  else toString i

/-- `output_pattern.format(name=..., num=i, ext=...)` for the
placeholders the splitter's patterns use. -/
def pyFormat (pattern stem : String) (i : Nat) (ext : String) : String :=
  strReplace (strReplace (strReplace (strReplace pattern
    "\x7bname\x7d" stem) "\x7bnum:03d\x7d" (pad3 i)) "\x7bnum\x7d" (toString i))
    "\x7bext\x7d" ext

/-- Output path of the `i`-th (1-based) part in by-count mode. -/
def partOutputPath (input_path output_dir output_pattern : String) (i : Nat) : String :=
  output_dir ++ "/" ++ pyFormat output_pattern (path_stem input_path) i (path_suffix input_path)

/-- `FFmpegSplitter._build_split_command`. -/
def build_split_command (input_path output_path : String) (start_time duration : ℚ)
    (use_stream_copy : Bool) : List String :=
  ["ffmpeg", "-ss", toString start_time, "-i", input_path, "-t", toString duration]
  ++ (if use_stream_copy then ["-c", "copy"] else ["-c:v", "libx264", "-c:a", "aac"])
  ++ ["-avoid_negative_ts", "1", "-y", output_path]

/-- `FFmpegSplitter._execute_command`: nonzero exit is an error, and a
missing output file after a zero exit is also a hard error. -/
def execute_command (env : Env) (cmd : List String) (output_path : String) :
    Except String Unit :=
  if env.run_exit_code cmd ≠ 0 then
    .error ("FFmpeg failed for " ++ fileName output_path ++ ":\n" ++ env.run_stderr cmd)
  else if ¬ env.path_exists output_path then
    .error ("Output file not created: " ++ output_path)
  else .ok ()

/-- The `(start_time, segment_length)` pairs of by-count splitting. -/
def splitPoints (num_parts : Nat) (duration : ℚ) : List (ℚ × ℚ) :=
  (List.range num_parts).map (fun (i : ℕ) =>
    let seg := duration / (num_parts : ℚ)
    let start := (i : ℚ) * seg
    let endT := if i < num_parts - 1 then ((i : ℚ) + 1) * seg else duration
    (start, endT - start))

/-- The sequential per-part loop of `_split_by_count`. -/
def splitByCountLoop (env : Env) (input_path output_dir output_pattern : String)
    (use_stream_copy : Bool) :
    List (ℚ × ℚ) → Nat → List String → Except String (List String)
  | [], _, acc => .ok acc.reverse
  | (st, len) :: rest, i, acc =>
    match execute_command env
        (build_split_command input_path
          (partOutputPath input_path output_dir output_pattern i) st len use_stream_copy)
        (partOutputPath input_path output_dir output_pattern i) with
    | .error e => .error e
    | .ok _ =>
        splitByCountLoop env input_path output_dir output_pattern use_stream_copy
          rest (i + 1) (partOutputPath input_path output_dir output_pattern i :: acc)

/-- `FFmpegSplitter._split_by_count`. -/
def split_by_count (env : Env) (input_path output_dir : String) (num_parts : Nat)
    (duration : ℚ) (output_pattern : String) (use_stream_copy : Bool) :
    Except String (List String) :=
  splitByCountLoop env input_path output_dir output_pattern use_stream_copy
    (splitPoints num_parts duration) 1 []

/-- `FFmpegSplitter._split_by_duration` (single segmenting run; the
produced part files are discovered by a glob over the output dir). -/
def split_by_duration (env : Env) (input_path output_dir : String)
    (segment_duration : ℚ) (output_pattern : String) (use_stream_copy : Bool) :
    Except String (List String) :=
  let segment_pattern :=
    strReplace (strReplace (strReplace (strReplace output_pattern
      "\x7bname\x7d" (path_stem input_path)) "\x7bnum:03d\x7d" "%03d")
      "\x7bnum\x7d" "%d") "\x7bext\x7d" (path_suffix input_path)
  let cmd := ["ffmpeg", "-i", input_path, "-f", "segment",
      "-segment_time", toString segment_duration, "-reset_timestamps", "1",
      "-break_non_keyframes", "0"]
    ++ (if use_stream_copy then ["-c", "copy"] else ["-c:v", "libx264", "-c:a", "aac"])
    ++ ["-avoid_negative_ts", "1", output_dir ++ "/" ++ segment_pattern]
  if env.run_exit_code cmd ≠ 0 then
    .error ("FFmpeg failed: " ++ env.run_stderr cmd)
  else
    .ok (((env.listdir output_dir).filter (fun f =>
        strStartsWith (fileName f) (path_stem input_path ++ "_part")
        && strEndsWith f (path_suffix input_path))).mergeSort (· ≤ ·))

/-- The mode dispatch of `FFmpegSplitter.split_video`, after the
duration is known. -/
def split_video_mode (env : Env) (t : VideoTask) (s : SplitSettings) (dur : ℚ) :
    Except String (List String) :=
  if s.mode = .by_count then
    split_by_count env t.input_path (parentDir t.output_path) s.num_parts.toNat
      dur s.output_pattern s.use_stream_copy
  else if s.mode = .by_duration then
    split_by_duration env t.input_path (parentDir t.output_path)
      s.duration_seconds s.output_pattern s.use_stream_copy
  else .error "Unknown split mode"

/-- The body of `FFmpegSplitter.split_video` once the settings dict is
present. -/
def split_video_settings (env : Env) (t : VideoTask) (s : SplitSettings) :
    Except String (List String) :=
  if ! s.enabled then .error "Split settings not enabled"
  else if ! s.validate.1 then .error ("Invalid split settings: " ++ s.validate.2)
  else
    match (if t.duration ≤ 0 then env.probe_duration t.input_path else some t.duration) with
    | none => .error "ffprobe failed"
    | some dur => split_video_mode env t s dur

/-- `FFmpegSplitter.split_video`. -/
def split_video (env : Env) (t : VideoTask) : Except String (List String) :=
  match t.split_settings with
  | none => .error "Split settings not enabled"
  | some s => split_video_settings env t s

/-- `FFmpegSplitter.validate_task`. -/
def splitter_validate_task (env : Env) (t : VideoTask) : Bool × String :=
  match t.split_settings with
  | none => (false, "Split settings not configured")
  | some s =>
    if ! s.enabled then (false, "Split not enabled")
    else if ¬ env.path_exists t.input_path then
      (false, "Input file not found: " ++ t.input_path)
    else if ! s.validate.1 then (false, s.validate.2)
    else (true, "")

/-! ## Worker split path (`FFmpegWorker._process_split_task`) -/

/-- How the worker signals the end of a task. -/
inductive WorkerOutcome where
  | completed
  | failed (msg : String)
deriving DecidableEq, Repr

/-- `FFmpegWorker._process_split_task`: validate, split, and report
either completion (with the part files) or failure; every splitter
error is caught and reported as `Split failed: ...`. -/
def process_split_task (env : Env) (t : VideoTask) : WorkerOutcome × List String :=
  let v := splitter_validate_task env t
  if ¬ v.1 then (.failed v.2, [])
  else
    match split_video env t with
    | .ok files => (.completed, files)
    | .error e => (.failed ("Split failed: " ++ e), [])

/-- The queue manager's reaction to the worker outcome:
`_on_task_completed` → `set_done`, `_on_task_failed` → `set_error`. -/
def task_after_worker (t : VideoTask) : WorkerOutcome → VideoTask
  | .completed => t.set_done
  | .failed m => t.set_error m

/-! ## Helper lemmas -/

/-- If any check in the guard sequence fires, the result is a
rejection. -/
theorem firstFailure_fst_false_of_mem {l : List (Bool × String)} {c : Bool × String}
    (hm : c ∈ l) (hc : c.1 = true) : (firstFailure l).1 = false := by
  induction l with
  | nil => cases hm
  | cons d rest ih =>
      rcases List.mem_cons.mp hm with rfl | hm2
      · simp [firstFailure, hc]
      · by_cases hd : d.1 = true <;> simp [firstFailure, hd, ih hm2]

/-- If the guard sequence accepts, every check passed. -/
theorem firstFailure_all_false {l : List (Bool × String)}
    (h : (firstFailure l).1 = true) : ∀ c ∈ l, c.1 = false := by
  intro c hm
  cases hc : c.1 with
  | false => rfl
  | true => rw [firstFailure_fst_false_of_mem hm hc] at h; exact Bool.noConfusion h

/-- The first firing check determines the returned message. -/
theorem firstFailure_prefix {l1 l2 : List (Bool × String)} {c : Bool × String}
    (h1 : ∀ d ∈ l1, d.1 = false) (hc : c.1 = true) :
    firstFailure (l1 ++ c :: l2) = (false, c.2) := by
  induction l1 with
  | nil => simp [firstFailure, hc]
  | cons d rest ih =>
      have hd := h1 d (List.mem_cons_self d rest)
      simp only [List.cons_append, firstFailure, hd]
      exact ih (fun e he => h1 e (List.mem_cons_of_mem d he))

/-- `(!b) = false` elimination. -/
theorem bnot_false {b : Bool} (h : (!b) = false) : b = true := by
  cases b
  · exact Bool.noConfusion h
  · rfl

/-- `(decide A && !decide B) = false` elimination. -/
theorem guard_and_elim {A B : Prop} [Decidable A] [Decidable B]
    (h : (decide A && ! decide B) = false) (ha : A) : B := by
  rw [decide_eq_true ha, Bool.true_and] at h
  exact of_decide_eq_true (bnot_false h)

/-- A task that passes `validate_task` passes every individual check:
the validator short-circuits, so `fst = true` is only reachable when
every guard passed. -/
theorem validate_task_passes (env : Env) (t : VideoTask)
    (h : (validate_task env t).1 = true) :
    env.path_exists t.input_path = true ∧
    env.path_exists (parentDir t.output_path) = true ∧
    subtitleMissing env t = false ∧
    (1/2 ≤ t.speed ∧ t.speed ≤ 2) ∧
    (0 ≤ t.volume ∧ t.volume ≤ 2) ∧
    (t.quality_mode = .crf → 0 ≤ t.crf ∧ t.crf ≤ 51) ∧
    fontMissing env t = false ∧
    overlayFileMissing env t.image_overlay = false ∧
    overlayFileMissing env t.video_overlay = false ∧
    overlayFileMissing env t.intro_video = false ∧
    overlayFileMissing env t.outro_video = false := by
  have hall := firstFailure_all_false (l := validateChecks env t) h
  refine ⟨?_, ?_, ?_, ?_, ?_, ?_, ?_, ?_, ?_, ?_, ?_⟩
  · exact bnot_false (hall (! env.path_exists t.input_path,
      "Input file not found: " ++ t.input_path) (by simp [validateChecks]))
  · exact bnot_false (hall (! env.path_exists (parentDir t.output_path),
      "Output directory not found: " ++ parentDir t.output_path)
      (by simp [validateChecks]))
  · exact hall (subtitleMissing env t,
      "Subtitle file not found: " ++ t.subtitle_file.getD "") (by simp [validateChecks])
  · exact of_decide_eq_true (bnot_false (hall
      (! decide (1/2 ≤ t.speed ∧ t.speed ≤ 2),
        "Speed must be between 0.5 and 2.0, got " ++ toString t.speed)
      (by simp [validateChecks])))
  · exact of_decide_eq_true (bnot_false (hall
      (! decide (0 ≤ t.volume ∧ t.volume ≤ 2),
        "Volume must be between 0.0 and 2.0, got " ++ toString t.volume)
      (by simp [validateChecks])))
  · exact guard_and_elim (hall
      (decide (t.quality_mode = .crf) && ! decide (0 ≤ t.crf ∧ t.crf ≤ 51),
        "CRF must be between 0 and 51, got " ++ toString t.crf)
      (by simp [validateChecks]))
  · exact hall (fontMissing env t, "Font file not found: "
      ++ (t.text_settings.bind TextSettings.font_path).getD "") (by simp [validateChecks])
  · exact hall (overlayFileMissing env t.image_overlay,
      "Image overlay file not found: "
        ++ (t.image_overlay.bind OverlaySettings.file_path).getD "")
      (by simp [validateChecks])
  · exact hall (overlayFileMissing env t.video_overlay,
      "Video overlay file not found: "
        ++ (t.video_overlay.bind OverlaySettings.file_path).getD "")
      (by simp [validateChecks])
  · exact hall (overlayFileMissing env t.intro_video,
      "Intro video file not found: "
        ++ (t.intro_video.bind OverlaySettings.file_path).getD "")
      (by simp [validateChecks])
  · exact hall (overlayFileMissing env t.outro_video,
      "Outro video file not found: "
        ++ (t.outro_video.bind OverlaySettings.file_path).getD "")
      (by simp [validateChecks])

/-- C6: `validate_task` rejects every task whose speed is outside
[0.5, 2.0], whose volume is outside [0.0, 2.0], or whose CRF is
outside [0, 51] while the quality mode is CRF — regardless of every
other task field. -/
theorem validate_task_rejects_out_of_range (env : Env) (t : VideoTask) :
    (¬ (1/2 ≤ t.speed ∧ t.speed ≤ 2) → (validate_task env t).1 = false) ∧
    (¬ (0 ≤ t.volume ∧ t.volume ≤ 2) → (validate_task env t).1 = false) ∧
    (t.quality_mode = .crf ∧ ¬ (0 ≤ t.crf ∧ t.crf ≤ 51) →
      (validate_task env t).1 = false) := by
  refine ⟨fun hs => ?_, fun hv => ?_, fun hc => ?_⟩ <;>
  · cases hval : (validate_task env t).1 with
    | false => rfl
    | true =>
        have := validate_task_passes env t hval
        tauto

/-- Witness for C6: a task whose only out-of-range field is
`speed = 3.0` is rejected even though every referenced file exists. -/
theorem validate_task_rejects_out_of_range_witness :
    (validate_task
      { path_exists := fun _ => true, listdir := fun _ => [],
        rand_choice := fun _ _ => "", probe_duration := fun _ => none,
        default_font := none, run_exit_code := fun _ => 0,
        run_stderr := fun _ => "" }
      { input_path := "in.mp4", output_path := "out/o.mp4", speed := 3 }).1 = false := by
  exact (validate_task_rejects_out_of_range _ _).1 (by norm_num)

/-! ## C5: validation of referenced files -/

/-- Environment in which every path except `wm.png` exists. -/
def wmEnv : Env :=
  { path_exists := fun p => ! (p = "wm.png"), listdir := fun _ => [],
    rand_choice := fun _ _ => "", probe_duration := fun _ => none,
    default_font := none, run_exit_code := fun _ => 0,
    run_stderr := fun _ => "" }

/-- A task with an IMAGE watermark whose watermark image is missing
and every other check in order. -/
def wmTask : VideoTask :=
  { input_path := "in.mp4", output_path := "out/o.mp4",
    watermark_type := .image, watermark_image := some "wm.png" }

/-- C5 counterexample: `FFmpegPythonBuilder.validate_task` (the
builder the worker uses) has no watermark check at all, so a task with
watermark type IMAGE whose watermark image file does not exist is
accepted, not rejected. -/
theorem watermark_missing_accepted :
    wmTask.watermark_type = .image ∧
    wmTask.watermark_image = some "wm.png" ∧
    wmEnv.path_exists "wm.png" = false ∧
    validate_task wmEnv wmTask = (true, "") := by
  refine ⟨rfl, rfl, by decide, ?_⟩
  have c4 : (!decide (1/2 ≤ wmTask.speed ∧ wmTask.speed ≤ 2)) = false := by
    rw [decide_eq_true (by norm_num [wmTask] : 1/2 ≤ wmTask.speed ∧ wmTask.speed ≤ 2)]
    rfl
  have c5 : (!decide (0 ≤ wmTask.volume ∧ wmTask.volume ≤ 2)) = false := by
    rw [decide_eq_true (by norm_num [wmTask] : 0 ≤ wmTask.volume ∧ wmTask.volume ≤ 2)]
    rfl
  simp only [validate_task, validateChecks, firstFailure, c4, c5]
  decide

/-- C5 (amended): for each of the subtitle, font, image-overlay,
video-overlay, intro and outro files, if the feature is enabled, its
file is missing, and the preceding validation checks pass, then
`validate_task` returns `(false, message)` with a message naming that
file.  Watermark files are not checked by this builder. -/
theorem validate_missing_file_messages (env : Env) (t : VideoTask)
    (hin : env.path_exists t.input_path = true)
    (hout : env.path_exists (parentDir t.output_path) = true) :
    (∀ p, t.subtitle_file = some p → env.path_exists p = false →
      validate_task env t = (false, "Subtitle file not found: " ++ p))
    ∧
    (subtitleMissing env t = false → (1/2 ≤ t.speed ∧ t.speed ≤ 2) →
     (0 ≤ t.volume ∧ t.volume ≤ 2) →
     (t.quality_mode = .crf → 0 ≤ t.crf ∧ t.crf ≤ 51) →
     ∀ ts p, t.text_settings = some ts → ts.is_active = true →
       ts.font_path = some p → env.path_exists p = false →
       validate_task env t = (false, "Font file not found: " ++ p))
    ∧
    (subtitleMissing env t = false → (1/2 ≤ t.speed ∧ t.speed ≤ 2) →
     (0 ≤ t.volume ∧ t.volume ≤ 2) →
     (t.quality_mode = .crf → 0 ≤ t.crf ∧ t.crf ≤ 51) →
     fontMissing env t = false →
     ∀ io p, t.image_overlay = some io → io.enabled = true →
       io.file_path = some p → p ≠ "" → env.path_exists p = false →
       validate_task env t = (false, "Image overlay file not found: " ++ p))
    ∧
    (subtitleMissing env t = false → (1/2 ≤ t.speed ∧ t.speed ≤ 2) →
     (0 ≤ t.volume ∧ t.volume ≤ 2) →
     (t.quality_mode = .crf → 0 ≤ t.crf ∧ t.crf ≤ 51) →
     fontMissing env t = false → overlayFileMissing env t.image_overlay = false →
     ∀ vo p, t.video_overlay = some vo → vo.enabled = true →
       vo.file_path = some p → p ≠ "" → env.path_exists p = false →
       validate_task env t = (false, "Video overlay file not found: " ++ p))
    ∧
    (subtitleMissing env t = false → (1/2 ≤ t.speed ∧ t.speed ≤ 2) →
     (0 ≤ t.volume ∧ t.volume ≤ 2) →
     (t.quality_mode = .crf → 0 ≤ t.crf ∧ t.crf ≤ 51) →
     fontMissing env t = false → overlayFileMissing env t.image_overlay = false →
     overlayFileMissing env t.video_overlay = false →
     ∀ io p, t.intro_video = some io → io.enabled = true →
       io.file_path = some p → p ≠ "" → env.path_exists p = false →
       validate_task env t = (false, "Intro video file not found: " ++ p))
    ∧
    (subtitleMissing env t = false → (1/2 ≤ t.speed ∧ t.speed ≤ 2) →
     (0 ≤ t.volume ∧ t.volume ≤ 2) →
     (t.quality_mode = .crf → 0 ≤ t.crf ∧ t.crf ≤ 51) →
     fontMissing env t = false → overlayFileMissing env t.image_overlay = false →
     overlayFileMissing env t.video_overlay = false →
     overlayFileMissing env t.intro_video = false →
     ∀ oo p, t.outro_video = some oo → oo.enabled = true →
       oo.file_path = some p → p ≠ "" → env.path_exists p = false →
       validate_task env t = (false, "Outro video file not found: " ++ p)) := by
  refine ⟨?_, ?_, ?_, ?_, ?_, ?_⟩
  · intro p hp hmiss
    have hc : subtitleMissing env t = true := by simp [subtitleMissing, hp, hmiss]
    simp [validate_task, validateChecks, firstFailure, hin, hout, hc, hp]
  · intro hsub hsp hvol hcrf ts p hts hact hfp hmiss
    have hc : fontMissing env t = true := by
      simp [fontMissing, hts, hact, hfp, hmiss]
    have hltS : ¬ t.speed < (2:ℚ)⁻¹ := not_lt.mpr (by rw [← one_div]; exact hsp.1)
    have hcrf2 : ¬ (t.quality_mode = QualityMode.crf ∧ (t.crf < 0 ∨ 51 < t.crf)) := by
      rintro ⟨hm, hr⟩
      rcases hcrf hm with ⟨ha, hb⟩
      rcases hr with hr | hr <;> omega
    simp [validate_task, validateChecks, firstFailure, hin, hout, hsub, hsp, hvol,
      hltS, hcrf2, hc, hts, hfp]
  · intro hsub hsp hvol hcrf hfont io p hio hen hfp hne hmiss
    have hc : overlayFileMissing env (some io) = true := by
      simp [overlayFileMissing, hen, hfp, sTruthy, hne, hmiss]
    have hltS : ¬ t.speed < (2:ℚ)⁻¹ := not_lt.mpr (by rw [← one_div]; exact hsp.1)
    have hcrf2 : ¬ (t.quality_mode = QualityMode.crf ∧ (t.crf < 0 ∨ 51 < t.crf)) := by
      rintro ⟨hm, hr⟩
      rcases hcrf hm with ⟨ha, hb⟩
      rcases hr with hr | hr <;> omega
    simp [validate_task, validateChecks, firstFailure, hin, hout, hsub, hsp, hvol,
      hltS, hcrf2, hfont, hc, hio, hfp]
  · intro hsub hsp hvol hcrf hfont himg vo p hvo hen hfp hne hmiss
    have hc : overlayFileMissing env (some vo) = true := by
      simp [overlayFileMissing, hen, hfp, sTruthy, hne, hmiss]
    have hltS : ¬ t.speed < (2:ℚ)⁻¹ := not_lt.mpr (by rw [← one_div]; exact hsp.1)
    have hcrf2 : ¬ (t.quality_mode = QualityMode.crf ∧ (t.crf < 0 ∨ 51 < t.crf)) := by
      rintro ⟨hm, hr⟩
      rcases hcrf hm with ⟨ha, hb⟩
      rcases hr with hr | hr <;> omega
    simp [validate_task, validateChecks, firstFailure, hin, hout, hsub, hsp, hvol,
      hltS, hcrf2, hfont, himg, hc, hvo, hfp]
  · intro hsub hsp hvol hcrf hfont himg hvid io p hio hen hfp hne hmiss
    have hc : overlayFileMissing env (some io) = true := by
      simp [overlayFileMissing, hen, hfp, sTruthy, hne, hmiss]
    have hltS : ¬ t.speed < (2:ℚ)⁻¹ := not_lt.mpr (by rw [← one_div]; exact hsp.1)
    have hcrf2 : ¬ (t.quality_mode = QualityMode.crf ∧ (t.crf < 0 ∨ 51 < t.crf)) := by
      rintro ⟨hm, hr⟩
      rcases hcrf hm with ⟨ha, hb⟩
      rcases hr with hr | hr <;> omega
    simp [validate_task, validateChecks, firstFailure, hin, hout, hsub, hsp, hvol,
      hltS, hcrf2, hfont, himg, hvid, hc, hio, hfp]
  · intro hsub hsp hvol hcrf hfont himg hvid hint oo p hoo hen hfp hne hmiss
    have hc : overlayFileMissing env (some oo) = true := by
      simp [overlayFileMissing, hen, hfp, sTruthy, hne, hmiss]
    have hltS : ¬ t.speed < (2:ℚ)⁻¹ := not_lt.mpr (by rw [← one_div]; exact hsp.1)
    have hcrf2 : ¬ (t.quality_mode = QualityMode.crf ∧ (t.crf < 0 ∨ 51 < t.crf)) := by
      rintro ⟨hm, hr⟩
      rcases hcrf hm with ⟨ha, hb⟩
      rcases hr with hr | hr <;> omega
    simp [validate_task, validateChecks, firstFailure, hin, hout, hsub, hsp, hvol,
      hltS, hcrf2, hfont, himg, hvid, hint, hc, hoo, hfp]

/-- Witness for the amended C5: a task whose enabled outro video file
is missing is rejected with a message naming that file. -/
theorem validate_missing_file_messages_witness :
    validate_task
      { path_exists := fun p => ! (p = "outro.mp4"), listdir := fun _ => [],
        rand_choice := fun _ _ => "", probe_duration := fun _ => none,
        default_font := none, run_exit_code := fun _ => 0,
        run_stderr := fun _ => "" }
      { input_path := "in.mp4", output_path := "out/o.mp4",
        outro_video := some { enabled := true, file_path := some "outro.mp4" } }
      = (false, "Outro video file not found: outro.mp4") := by
  exact (validate_missing_file_messages _ _ (by decide) (by decide)).2.2.2.2.2
    (by decide) (by norm_num) (by norm_num) (by simp) (by decide) (by decide)
    (by decide) (by decide) _ _ rfl rfl rfl (by decide) (by decide)

/-! ## C7 / C9: queue-manager state lemmas -/

/-- `listModify` preserves length. -/
theorem listModify_length {α : Type} (f : α → α) (i : Nat) (l : List α) :
    (listModify f i l).length = l.length := by
  induction l generalizing i with
  | nil => cases i <;> rfl
  | cons a as ih =>
      cases i with
      | zero => rfl
      | succ n => simpa [listModify] using ih n

/-- Elements of `listModify f i l` come from `l`, the one at index `i`
through `f`. -/
theorem mem_listModify {α : Type} {f : α → α} {i : Nat} {l : List α} {u : α}
    (hu : u ∈ listModify f i l) : u ∈ l ∨ ∃ t, l[i]? = some t ∧ u = f t := by
  induction l generalizing i with
  | nil => simp [listModify] at hu
  | cons a as ih =>
      cases i with
      | zero =>
          rcases List.mem_cons.mp hu with rfl | h2
          · exact Or.inr ⟨a, by simp, rfl⟩
          · exact Or.inl (List.mem_cons_of_mem _ h2)
      | succ n =>
          rcases List.mem_cons.mp hu with rfl | h2
          · exact Or.inl (List.mem_cons_self _ _)
          · rcases ih h2 with h | ⟨t, ht, rfl⟩
            · exact Or.inl (List.mem_cons_of_mem _ h)
            · exact Or.inr ⟨t, by simpa using ht, rfl⟩

/-- `_process_next_task` does not add or drop tasks. -/
theorem process_next_tasks_length (q : QueueState) :
    q.process_next.tasks.length = q.tasks.length := by
  unfold QueueState.process_next
  split
  · rfl
  · split
    · rfl
    · simp [listModify_length]

/-- `start` does not add or drop tasks. -/
theorem start_tasks_length (q : QueueState) :
    q.start.tasks.length = q.tasks.length := by
  unfold QueueState.start
  split_ifs
  · rfl
  · rfl
  · exact process_next_tasks_length _

/-- C7: after `stop()`, every task that was Processing is Pending with
progress 0 and an empty error message, every other task is unchanged
(Done and Error tasks are not cleared), and a subsequent `start()`
operates on the same task list without re-creating tasks. -/
theorem stop_resets_processing (q : QueueState) (i : Nat) (t : VideoTask)
    (h : q.tasks[i]? = some t) :
    (t.status = .processing →
      q.stop.tasks[i]? = some t.reset ∧ t.reset.status = .pending ∧
        t.reset.progress = 0 ∧ t.reset.error_message = "")
    ∧ (t.status ≠ .processing → q.stop.tasks[i]? = some t)
    ∧ q.stop.tasks.length = q.tasks.length
    ∧ q.stop.start.tasks.length = q.tasks.length := by
  have hmap : q.stop.tasks[i]? =
      some (if t.is_processing then t.reset else t) := by
    show (q.tasks.map fun u => if u.is_processing then u.reset else u)[i]? = _
    rw [List.getElem?_map, h]
    rfl
  refine ⟨fun hp => ?_, fun hp => ?_, ?_, ?_⟩
  · refine ⟨?_, rfl, rfl, rfl⟩
    rwa [if_pos (by simp [VideoTask.is_processing, hp])] at hmap
  · rwa [if_neg (by simp [VideoTask.is_processing, hp])] at hmap
  · simp [QueueState.stop]
  · rw [start_tasks_length]
    simp [QueueState.stop]

/-- The Processing task of the C7 witness queue. -/
def c7Task1 : VideoTask :=
  { input_path := "a.mp4", output_path := "o/a.mp4",
    status := .processing, progress := 42 }

/-- The Done task of the C7 witness queue. -/
def c7Task2 : VideoTask :=
  { input_path := "b.mp4", output_path := "o/b.mp4",
    status := .done, progress := 100 }

/-- The C7 witness queue. -/
def c7Queue : QueueState := { tasks := [c7Task1, c7Task2], is_running := true }

/-- Witness for C7: a queue holding one Processing and one Done task;
after `stop()` the first is Pending with cleared progress and the Done
task is untouched. -/
theorem stop_resets_processing_witness :
    c7Queue.stop.tasks[0]? =
      some { c7Task1 with status := .pending, progress := 0, error_message := "" } ∧
    c7Queue.stop.tasks[1]? = some c7Task2 := by
  constructor
  · exact ((stop_resets_processing c7Queue 0 c7Task1 (by simp [c7Queue])).1 rfl).1
  · exact (stop_resets_processing c7Queue 1 c7Task2 (by simp [c7Queue])).2.1
      (by simp [c7Task2])

/-- Each task-state mutator establishes the invariant on its task. -/
theorem statusProgressInv_ops (t : VideoTask) (m : String) :
    statusProgressInv t.reset ∧ statusProgressInv t.set_processing ∧
    statusProgressInv t.set_done ∧ statusProgressInv (t.set_error m) := by
  refine ⟨⟨?_, ?_⟩, ⟨?_, ?_⟩, ⟨?_, ?_⟩, ⟨?_, ?_⟩⟩ <;>
    simp [VideoTask.reset, VideoTask.set_processing, VideoTask.set_done,
      VideoTask.set_error]

/-- One queue-manager operation preserves the invariant. -/
theorem applyOp_preserves_inv {ts : List VideoTask} {op : QOp}
    (hinv : queueInv ts) (hok : opOk ts op) : queueInv (applyOp ts op) := by
  cases op with
  | reset i =>
      intro u hu
      rcases mem_listModify hu with h | ⟨t, _, rfl⟩
      · exact hinv u h
      · exact (statusProgressInv_ops t "").1
  | set_processing i =>
      intro u hu
      rcases mem_listModify hu with h | ⟨t, _, rfl⟩
      · exact hinv u h
      · exact (statusProgressInv_ops t "").2.1
  | set_done i =>
      intro u hu
      rcases mem_listModify hu with h | ⟨t, _, rfl⟩
      · exact hinv u h
      · exact (statusProgressInv_ops t "").2.2.1
  | set_error i m =>
      intro u hu
      rcases mem_listModify hu with h | ⟨t, _, rfl⟩
      · exact hinv u h
      · exact (statusProgressInv_ops t m).2.2.2
  | progress i p =>
      intro u hu
      rcases mem_listModify hu with h | ⟨t, ht, rfl⟩
      · exact hinv u h
      · have hok2 : (match ts[i]? with
            | some u => u.status = TaskStatus.processing
            | none => True) := hok
        rw [ht] at hok2
        have hproc : t.status = .processing := hok2
        constructor
        · intro hd
          rw [show (applyProgress p t).status = t.status from rfl, hproc] at hd
          exact absurd hd (by simp)
        · intro he
          rw [show (applyProgress p t).status = t.status from rfl, hproc] at he
          exact absurd he (by simp)

/-- C9: Done ⇒ progress = 100 and Error ⇒ progress = 0 is established
by each task-state operation (`reset`, `set_processing`, `set_done`,
`set_error`) and holds for every task in the queue after every
sequence of queue-manager operations — including progress ticks, which
the manager only delivers to the task it set Processing. -/
theorem status_progress_invariant (t0 : VideoTask) (m : String)
    (ts us : List VideoTask) (hinv : queueInv ts) (hs : StepSeq ts us) :
    statusProgressInv t0.reset ∧ statusProgressInv t0.set_processing ∧
    statusProgressInv t0.set_done ∧ statusProgressInv (t0.set_error m) ∧
    queueInv us := by
  refine ⟨(statusProgressInv_ops t0 m).1, (statusProgressInv_ops t0 m).2.1,
    (statusProgressInv_ops t0 m).2.2.1, (statusProgressInv_ops t0 m).2.2.2, ?_⟩
  induction hs with
  | refl => exact hinv
  | step op _ hok ih => exact applyOp_preserves_inv ih hok

/-- Witness for C9: starting from a single Pending task, the sequence
set_processing → progress 37 → set_done keeps the invariant. -/
theorem status_progress_invariant_witness :
    queueInv (applyOp (applyOp (applyOp
      [({ input_path := "a.mp4", output_path := "o/a.mp4" } : VideoTask)]
      (.set_processing 0)) (.progress 0 37)) (.set_done 0)) := by
  refine (status_progress_invariant
    { input_path := "a.mp4", output_path := "o/a.mp4" } "" _ _ ?_
    (.step _ (.step _ (.step _ (.refl _) ?_) ?_) ?_)).2.2.2.2
  · intro u hu
    rcases List.mem_cons.mp hu with rfl | h2
    · exact ⟨by intro hc; exact absurd hc (by simp), by intro hc; exact absurd hc (by simp)⟩
    · cases h2
  · exact trivial
  · exact rfl
  · exact trivial

/-! ## C10: audio codec selection in the standard pipeline -/

/-- The `acodec` output option of `_get_output_kwargs`. -/
theorem lookup_acodec (t : VideoTask) :
    lookupKw (get_output_kwargs t) "acodec" =
      (if t.volume ≠ 1 ∨ t.speed ≠ 1 then some (.str "aac") else some (.str "copy")) := by
  unfold get_output_kwargs lookupKw
  split_ifs <;> simp [List.find?]

/-- The `audio_bitrate` output option of `_get_output_kwargs`. -/
theorem lookup_audio_bitrate (t : VideoTask) :
    lookupKw (get_output_kwargs t) "audio_bitrate" =
      (if t.volume ≠ 1 ∨ t.speed ≠ 1 then some (.str "192k") else none) := by
  unfold get_output_kwargs lookupKw
  split_ifs <;> simp [List.find?]

/-- C10: a standard-pipeline task (no overlays, intro/outro, stacking
or background frame) stream-copies its audio iff volume and speed are
both untouched; otherwise the audio is re-encoded to aac at 192k. -/
theorem standard_audio_codec (env : Env) (t : VideoTask)
    (h : needs_overlay t = false) :
    (lookupKw (build_command env t).output_kwargs "acodec" = some (.str "copy")
      ↔ (t.volume = 1 ∧ t.speed = 1))
    ∧ (¬ (t.volume = 1 ∧ t.speed = 1) →
        lookupKw (build_command env t).output_kwargs "acodec" = some (.str "aac")
        ∧ lookupKw (build_command env t).output_kwargs "audio_bitrate"
            = some (.str "192k")) := by
  have hb : (build_command env t).output_kwargs = get_output_kwargs t := by
    unfold build_command
    rw [h]
    rfl
  rw [hb, lookup_acodec, lookup_audio_bitrate]
  by_cases hc : t.volume ≠ 1 ∨ t.speed ≠ 1
  · rw [if_pos hc, if_pos hc]
    constructor
    · constructor
      · intro he
        exact absurd he (by simp)
      · intro he
        rcases hc with hc | hc
        · exact absurd he.1 hc
        · exact absurd he.2 hc
    · exact fun _ => ⟨rfl, rfl⟩
  · rw [if_neg hc, if_neg hc]
    push_neg at hc
    constructor
    · exact ⟨fun _ => hc, fun _ => rfl⟩
    · intro hn
      exact absurd ⟨hc.1, hc.2⟩ hn

/-- An environment in which every path exists and probing fails. -/
def pureEnv : Env :=
  { path_exists := fun _ => true, listdir := fun _ => [],
    rand_choice := fun _ _ => "", probe_duration := fun _ => none,
    default_font := none, run_exit_code := fun _ => 0, run_stderr := fun _ => "" }

/-- C10 witness task with volume 2.0. -/
def c10TaskA : VideoTask :=
  { input_path := "in.mp4", output_path := "o/out.mp4", volume := 2 }

/-- C10 witness task with default volume and speed. -/
def c10TaskB : VideoTask := { input_path := "in.mp4", output_path := "o/out.mp4" }

/-- Witness for C10: a task with volume 2.0 (speed untouched) forces
aac/192k re-encoding; the same task with defaults stream-copies. -/
theorem standard_audio_codec_witness :
    lookupKw (build_command pureEnv c10TaskA).output_kwargs "acodec"
      = some (.str "aac") ∧
    lookupKw (build_command pureEnv c10TaskB).output_kwargs "acodec"
      = some (.str "copy") := by
  constructor
  · exact ((standard_audio_codec pureEnv c10TaskA rfl).2 (by norm_num [c10TaskA])).1
  · exact (standard_audio_codec pureEnv c10TaskB rfl).1.mpr ⟨rfl, rfl⟩

/-! ## C2: standard-pipeline video filter order -/

/-- The scale step appends exactly the scale filter. -/
theorem chainNames_scaleStage (t : VideoTask) (s : SExpr) {w h : Int}
    (hs : t.scale = some (w, h)) :
    chainNames (scaleStage t s) =
      chainNames s ++ [if t.codec.is_gpu then "scale_cuda" else "scale"] := by
  unfold scaleStage
  rw [hs]
  by_cases hg : t.codec.is_gpu = true <;> simp [hg, chainNames]

/-- The crop step appends exactly the crop filter. -/
theorem chainNames_cropStage (t : VideoTask) (s : SExpr) {x y w h : Int}
    (hc : t.crop = some (x, y, w, h)) :
    chainNames (cropStage t s) = chainNames s ++ ["crop"] := by
  unfold cropStage
  rw [hc]
  simp [chainNames]

/-- The speed step appends exactly the setpts filter. -/
theorem chainNames_speedStage (t : VideoTask) (s : SExpr) (hs : t.speed ≠ 1) :
    chainNames (speedStage t s) = chainNames s ++ ["setpts"] := by
  unfold speedStage
  rw [if_pos hs]
  simp [chainNames]

/-- The drawtext step only appends filters. -/
theorem chainNames_textStage (env : Env) (t : VideoTask) (sk : Bool) (s : SExpr) :
    ∃ r, chainNames (textStage env t sk s) = chainNames s ++ r := by
  unfold textStage
  repeat' split
  all_goals first
    | (refine ⟨["drawtext"], ?_⟩
       simp [chainNames]
       done)
    | (refine ⟨[], ?_⟩
       simp
       done)

/-- The subtitle step only appends filters. -/
theorem chainNames_subtitleStage (t : VideoTask) (s : SExpr) :
    ∃ r, chainNames (subtitleStage t s) = chainNames s ++ r := by
  unfold subtitleStage
  cases t.subtitle_file with
  | none => exact ⟨[], by simp⟩
  | some p => exact ⟨["subtitles"], by simp [chainNames]⟩

/-- C2: in the standard pipeline, a task with scale, crop and a
non-unit speed emits the scale filter, then the crop filter, then the
setpts filter, in exactly that order at the head of the video filter
chain — the order is fixed by the builder, not by field-assignment
order (the task is a record; the builder reads its fields in this
fixed sequence). -/
theorem standard_filter_order (env : Env) (t : VideoTask)
    (h : needs_overlay t = false) (w h2 : Int) (hs : t.scale = some (w, h2))
    (x y cw ch : Int) (hc : t.crop = some (x, y, cw, ch)) (hsp : t.speed ≠ 1) :
    ∃ rest, chainNames (build_command env t).video_stream =
      [(if t.codec.is_gpu then "scale_cuda" else "scale"), "crop", "setpts"] ++ rest := by
  have hb : (build_command env t).video_stream =
      apply_video_filters env t false (.vinput t.input_path (input_kwargs t)) := by
    unfold build_command
    rw [h]
    rfl
  obtain ⟨r1, hr1⟩ := chainNames_textStage env t false
    (speedStage t (cropStage t (scaleStage t (.vinput t.input_path (input_kwargs t)))))
  obtain ⟨r2, hr2⟩ := chainNames_subtitleStage t
    (textStage env t false (speedStage t (cropStage t
      (scaleStage t (.vinput t.input_path (input_kwargs t))))))
  refine ⟨r1 ++ r2, ?_⟩
  rw [hb]
  unfold apply_video_filters
  rw [hr2, hr1, chainNames_speedStage t _ hsp, chainNames_cropStage t _ hc,
    chainNames_scaleStage t _ hs]
  simp [chainNames]

/-- C2 witness task: scale, crop and speed 1.5 all set. -/
def c2Task : VideoTask :=
  { input_path := "in.mp4", output_path := "o/out.mp4",
    scale := some (1280, 720), crop := some (0, 0, 100, 100), speed := 3/2 }

/-- Witness for C2: the witness task's chain starts scale, crop,
setpts. -/
theorem standard_filter_order_witness :
    ∃ rest, chainNames (build_command pureEnv c2Task).video_stream =
      ["scale", "crop", "setpts"] ++ rest := by
  obtain ⟨r, hr⟩ := standard_filter_order pureEnv c2Task rfl 1280 720 rfl
    0 0 100 100 rfl (by norm_num [c2Task])
  exact ⟨r, by simpa [c2Task] using hr⟩

/-! ## C1: audio tempo decomposition -/

/-- With fuel bounding the speed from both sides, the product of the
emitted atempo stages is exactly the input speed. -/
theorem atempoChain_prod : ∀ (fuel : Nat) (s : ℚ), 0 < s →
    1 ≤ s * 2 ^ fuel → s ≤ 2 ^ fuel * 2 → (atempoChain fuel s).prod = s := by
  intro fuel
  induction fuel with
  | zero =>
      intro s hs hlow hhigh
      unfold atempoChain
      split_ifs with h1
      · simp
      · push_neg at h1
        simpa [h1] using rfl
  | succ fuel ih =>
      intro s hs hlow hhigh
      have hP : (0:ℚ) < 2 ^ fuel := by positivity
      have h1P : (1:ℚ) ≤ 2 ^ fuel := one_le_pow₀ (by norm_num)
      unfold atempoChain
      split_ifs with h1 h2 h3
      · -- 2 < s : halve
        have hrec := ih (s / 2) (by positivity) ?_ ?_
        · rw [List.prod_cons, hrec]
          field_simp
        · have hgt : 1 < s / 2 := (lt_div_iff (by norm_num)).mpr (by linarith)
          nlinarith
        · rw [pow_succ] at hhigh
          rw [div_le_iff (by norm_num : (0:ℚ) < 2)]
          linarith
      · -- s < 1/2 : double
        have hdd : s / (1/2) = s * 2 := by
          rw [div_eq_mul_inv, one_div, inv_inv]
        have hrec := ih (s / (1/2)) (by rw [hdd]; positivity) ?_ ?_
        · rw [List.prod_cons, hrec, hdd]
          ring
        · rw [hdd, pow_succ] at *
          nlinarith
        · rw [hdd]
          nlinarith
      · simp
      · push_neg at h3
        simp [h3]

/-- For speeds ≥ 1/2 the chain is some `atempo=2.0` stages followed by
at most one remainder. -/
theorem atempoChain_shape_ge : ∀ (fuel : Nat) (s : ℚ), 1/2 ≤ s →
    ∃ a rem, atempoChain fuel s = List.replicate a (2:ℚ) ++ rem ∧ rem.length ≤ 1 := by
  intro fuel
  induction fuel with
  | zero =>
      intro s _
      unfold atempoChain
      split_ifs
      · exact ⟨0, [s], by simp, by simp⟩
      · exact ⟨0, [], by simp, by simp⟩
  | succ fuel ih =>
      intro s hs
      unfold atempoChain
      split_ifs with h1 h2 h3
      · obtain ⟨a, rem, heq, hlen⟩ := ih (s / 2)
          (by rw [le_div_iff (by norm_num : (0:ℚ) < 2)]; linarith)
        exact ⟨a + 1, rem, by simp [List.replicate_succ, heq], hlen⟩
      · exact absurd h2 (by linarith)
      · exact ⟨0, [s], by simp, by simp⟩
      · exact ⟨0, [], by simp, by simp⟩

/-- For positive speeds ≤ 2 the chain is some `atempo=0.5` stages
followed by at most one remainder. -/
theorem atempoChain_shape_le : ∀ (fuel : Nat) (s : ℚ), 0 < s → s ≤ 2 →
    ∃ b rem, atempoChain fuel s = List.replicate b (1/2 : ℚ) ++ rem ∧ rem.length ≤ 1 := by
  intro fuel
  induction fuel with
  | zero =>
      intro s _ _
      unfold atempoChain
      split_ifs
      · exact ⟨0, [s], by simp, by simp⟩
      · exact ⟨0, [], by simp, by simp⟩
  | succ fuel ih =>
      intro s hs hs2
      unfold atempoChain
      split_ifs with h1 h2 h3
      · exact absurd h1 (by linarith)
      · have hdd : s / (1/2) = s * 2 := by
          rw [div_eq_mul_inv, one_div, inv_inv]
        obtain ⟨b, rem, heq, hlen⟩ := ih (s / (1/2))
          (by rw [hdd]; positivity) (by rw [hdd]; linarith)
        rw [hdd] at heq
        exact ⟨b + 1, rem, by simp [List.replicate_succ, heq], hlen⟩
      · exact ⟨0, [s], by simp, by simp⟩
      · exact ⟨0, [], by simp, by simp⟩

/-- `atempo_fuel` always suffices: it bounds the speed on both sides. -/
theorem audio_fuel_bounds (s : ℚ) (hs : 0 < s) :
    1 ≤ s * 2 ^ atempo_fuel s ∧ s ≤ 2 ^ atempo_fuel s * 2 := by
  have hnum : 0 < s.num := Rat.num_pos.mpr hs
  have hnum1 : (1:ℚ) ≤ (s.num : ℚ) := by exact_mod_cast hnum
  have hden1 : (1:ℚ) ≤ (s.den : ℚ) := by exact_mod_cast s.pos
  have hcast : ((s.num.natAbs : ℕ) : ℚ) = (s.num : ℚ) := by
    rw [Int.cast_natAbs]
    rw [abs_of_pos hnum]
  have hnum_pow : (s.num : ℚ) ≤ 2 ^ s.num.natAbs := by
    rw [← hcast]
    calc ((s.num.natAbs : ℕ) : ℚ) ≤ ((2 ^ s.num.natAbs : ℕ) : ℚ) := by
          exact_mod_cast Nat.le_of_lt (Nat.lt_two_pow _)
      _ = 2 ^ s.num.natAbs := by push_cast; ring
  have hden_pow : (s.den : ℚ) ≤ 2 ^ s.den := by
    calc ((s.den : ℕ) : ℚ) ≤ ((2 ^ s.den : ℕ) : ℚ) := by
          exact_mod_cast Nat.le_of_lt (Nat.lt_two_pow _)
      _ = 2 ^ s.den := by push_cast; ring
  have hmono1 : (2:ℚ) ^ s.num.natAbs ≤ 2 ^ atempo_fuel s :=
    pow_le_pow_right (by norm_num) (Nat.le_add_right _ _)
  have hmono2 : (2:ℚ) ^ s.den ≤ 2 ^ atempo_fuel s :=
    pow_le_pow_right (by norm_num) (Nat.le_add_left _ _)
  have hP : (0:ℚ) < 2 ^ atempo_fuel s := by positivity
  constructor
  · -- 1/s = den/num ≤ den ≤ 2^den ≤ 2^fuel
    have hsd : s = (s.num : ℚ) / (s.den : ℚ) := (Rat.num_div_den s).symm
    have hinv : 1 / s = (s.den : ℚ) / (s.num : ℚ) := by
      conv_lhs => rw [hsd]
      rw [one_div_div]
    have hinv_le : 1 / s ≤ (s.den : ℚ) := by
      rw [hinv]
      exact div_le_self (by linarith) hnum1
    have : 1 / s ≤ 2 ^ atempo_fuel s := le_trans hinv_le (le_trans hden_pow hmono2)
    rw [div_le_iff hs] at this
    linarith [this]
  · have hsd : s = (s.num : ℚ) / (s.den : ℚ) := (Rat.num_div_den s).symm
    have hle : s ≤ (s.num : ℚ) := by
      conv_lhs => rw [hsd]
      exact div_le_self (by linarith) hden1
    have : s ≤ 2 ^ atempo_fuel s := le_trans hle (le_trans hnum_pow hmono1)
    linarith

/-- The atempo factors applied along a linear audio filter chain,
innermost first. -/
def atempoArgs : SExpr → List ℚ
  | .filt "atempo" [.num q] _ s => atempoArgs s ++ [q]
  | .filt _ _ _ s => atempoArgs s
  | _ => []

/-- Folding the atempo stages over a stream appends their factors. -/
theorem atempoArgs_foldl : ∀ (l : List ℚ) (b : SExpr),
    atempoArgs (l.foldl (fun acc v => SExpr.filt "atempo" [.num v] [] acc) b) =
      atempoArgs b ++ l := by
  intro l
  induction l with
  | nil => intro b; simp
  | cons x xs ih =>
      intro b
      rw [List.foldl_cons, ih]
      simp [atempoArgs]

/-- C1: for every positive speed factor, the audio-filter builder
emits some number of `atempo=2.0` stages, some number of `atempo=0.5`
stages and at most one remainder stage, whose product is exactly the
speed factor; e.g. speed 5.0 yields [2.0, 2.0, 1.25].  The final
conjunct ties the stage list to `_apply_audio_filters`. -/
theorem audio_tempo_decomposition (s : ℚ) (hs : 0 < s) :
    (∃ a b rem, audio_speed_stages s =
        List.replicate a (2:ℚ) ++ List.replicate b (1/2 : ℚ) ++ rem ∧
        rem.length ≤ 1)
    ∧ (audio_speed_stages s).prod = s
    ∧ audio_speed_stages 5 = [2, 2, 5/4]
    ∧ ∀ (t : VideoTask) (base : SExpr),
        atempoArgs (apply_audio_filters t base) =
          atempoArgs base ++ audio_speed_stages t.speed := by
  obtain ⟨hlow, hhigh⟩ := audio_fuel_bounds s hs
  refine ⟨?_, atempoChain_prod _ s hs hlow hhigh, ?_, ?_⟩
  · by_cases h2 : s ≤ 2
    · obtain ⟨b, rem, heq, hlen⟩ := atempoChain_shape_le (atempo_fuel s) s hs h2
      exact ⟨0, b, rem, by simpa [audio_speed_stages] using heq, hlen⟩
    · obtain ⟨a, rem, heq, hlen⟩ := atempoChain_shape_ge (atempo_fuel s) s (by linarith)
      exact ⟨a, 0, rem, by simpa [audio_speed_stages] using heq, hlen⟩
  · have hfuel : atempo_fuel 5 = 6 := by norm_num [atempo_fuel]
    show atempoChain (atempo_fuel 5) 5 = [2, 2, 5/4]
    rw [hfuel]
    norm_num [atempoChain]
  · intro t base
    unfold apply_audio_filters
    by_cases hsp : t.speed ≠ 1
    · rw [if_pos hsp, atempoArgs_foldl]
      congr 1
      split_ifs with hv
      · simp [atempoArgs]
      · rfl
    · rw [if_neg hsp]
      push_neg at hsp
      have hone : audio_speed_stages t.speed = [] := by
        rw [hsp]
        norm_num [audio_speed_stages, atempo_fuel, atempoChain]
      rw [hone]
      split_ifs with hv
      · simp [atempoArgs]
      · simp

/-- Witness for C1 at speed 5.0: the decomposition is [2, 2, 1.25]
and multiplies back to 5. -/
theorem audio_tempo_decomposition_witness :
    (audio_speed_stages 5).prod = 5 ∧ audio_speed_stages 5 = [2, 2, 5/4] := by
  exact ⟨(audio_tempo_decomposition 5 (by norm_num)).2.1,
    (audio_tempo_decomposition 5 (by norm_num)).2.2.1⟩

/-! ## C4: stacking duration clamp and audio isolation -/

/-- `stackStage` never touches the audio stream. -/
theorem stackStage_snd (env : Env) (t : VideoTask) (va : SExpr × SExpr) :
    (stackStage env t va).2 = va.2 := by
  unfold stackStage
  repeat' split
  all_goals rfl

/-- Stacking implies the complex pipeline. -/
theorem stackActive_needs_overlay {t : VideoTask} (hst : stackActive t = true) :
    needs_overlay t = true := by
  simp [needs_overlay, hst]

/-- The audio stream of `_build_with_overlay`, spelled out. -/
theorem build_with_overlay_audio (env : Env) (t : VideoTask) :
    (build_with_overlay env t).audio_stream =
      (stackStage env t (concatStage env t
        (videoOverlayStage env t (imageOverlayStage env t (mainVideoFilters env t
          (backgroundStage env t (.vinput t.input_path (input_kwargs t))))),
         apply_audio_filters t (.ainput t.input_path (input_kwargs t))))).2 := rfl

/-- A disabled intro contributes no streams. -/
theorem introStreams_none (env : Env) (t : VideoTask)
    (h : ovEnabled t.intro_video = false) : introStreams env t = none := by
  cases hio : t.intro_video with
  | none => simp [introStreams, hio]
  | some io =>
      rw [hio] at h
      simp [introStreams, hio, show io.enabled = false from h]

/-- A disabled outro contributes no streams. -/
theorem outroStreams_none (env : Env) (t : VideoTask)
    (h : ovEnabled t.outro_video = false) : outroStreams env t = none := by
  cases hoo : t.outro_video with
  | none => simp [outroStreams, hoo]
  | some oo =>
      rw [hoo] at h
      simp [outroStreams, hoo, show oo.enabled = false from h]

/-- The intro audio stream carries no amix filter. -/
theorem introStreams_audio_amix (env : Env) (t : VideoTask) (p : SExpr × SExpr)
    (h : introStreams env t = some p) : usesFilter "amix" p.2 = false := by
  unfold introStreams at h
  repeat' split at h
  all_goals first
    | exact Option.noConfusion h
    | (cases h
       simp [usesFilter]
       done)

/-- The outro audio stream carries no amix filter. -/
theorem outroStreams_audio_amix (env : Env) (t : VideoTask) (p : SExpr × SExpr)
    (h : outroStreams env t = some p) : usesFilter "amix" p.2 = false := by
  unfold outroStreams at h
  repeat' split at h
  all_goals first
    | exact Option.noConfusion h
    | (cases h
       simp [usesFilter]
       done)

/-- The audio filters introduce no amix filter. -/
theorem usesFilter_amix_applyAudio (t : VideoTask) (s : SExpr) :
    usesFilter "amix" (apply_audio_filters t s) = usesFilter "amix" s := by
  have hfold : ∀ (l : List ℚ) (b : SExpr),
      usesFilter "amix" (l.foldl (fun acc v => SExpr.filt "atempo" [.num v] [] acc) b)
        = usesFilter "amix" b := by
    intro l
    induction l with
    | nil => intro b; rfl
    | cons x xs ih =>
        intro b
        rw [List.foldl_cons, ih]
        simp [usesFilter]
  unfold apply_audio_filters
  by_cases hv : t.volume ≠ 1 <;> by_cases hs : t.speed ≠ 1 <;>
    simp [hv, hs, hfold, usesFilter]

/-- The concat block introduces no amix filter on the audio side. -/
theorem usesFilter_amix_concat_snd (env : Env) (t : VideoTask) (v a : SExpr)
    (hA : usesFilter "amix" a = false) :
    usesFilter "amix" ((concatStage env t (v, a)).2) = false := by
  unfold concatStage
  cases hi : introStreams env t with
  | none =>
      cases ho : outroStreams env t with
      | none => simpa using hA
      | some q => simp [usesFilter, hA, outroStreams_audio_amix env t q ho]
  | some p =>
      cases ho : outroStreams env t with
      | none => simp [usesFilter, hA, introStreams_audio_amix env t p hi]
      | some q =>
          simp [usesFilter, hA, introStreams_audio_amix env t p hi,
            outroStreams_audio_amix env t q ho]

/-- No build ever emits an amix filter into the audio stream. -/
theorem usesFilter_amix_audio (env : Env) (t : VideoTask) :
    usesFilter "amix" (build_command env t).audio_stream = false := by
  unfold build_command
  split_ifs with h
  · rw [show (build_with_overlay env t).audio_stream =
        (stackStage env t (concatStage env t
          (videoOverlayStage env t (imageOverlayStage env t (mainVideoFilters env t
            (backgroundStage env t (.vinput t.input_path (input_kwargs t))))),
           apply_audio_filters t (.ainput t.input_path (input_kwargs t))))).2
        from rfl]
    rw [stackStage_snd]
    exact usesFilter_amix_concat_snd env t _ _
      (by rw [usesFilter_amix_applyAudio]; rfl)
  · rw [show (build_standard env t).audio_stream =
        apply_audio_filters t (.ainput t.input_path (input_kwargs t)) from rfl]
    rw [usesFilter_amix_applyAudio]
    rfl

/-- The `-t` clamp of the complex pipeline's output options. -/
theorem overlay_kwargs_t (t : VideoTask) (hst : stackActive t = true)
    (hd : 0 < effective_duration t) :
    lookupKw (overlay_output_kwargs t) "t" = some (.num (effective_duration t)) := by
  unfold overlay_output_kwargs get_output_kwargs
  rw [hst]
  simp only [if_true, if_pos hd]
  split_ifs <;> simp [setKw, lookupKw, List.find?, List.any]

/-- C4: for a stacking task with positive effective duration, the
emitted command clamps the output duration with `-t` to exactly the
main video's effective duration; the audio stream is identical to the
one the builder produces with stacking disabled (the stacked source
never contributes audio), and no amix audio-mixing filter occurs in
the audio stream. -/
theorem stacking_clamp_and_audio (env : Env) (t : VideoTask)
    (hst : stackActive t = true) (hd : 0 < effective_duration t) :
    lookupKw (build_command env t).output_kwargs "t"
        = some (.num (effective_duration t))
    ∧ (build_command env t).audio_stream
        = (build_command env { t with stack_settings := none }).audio_stream
    ∧ usesFilter "amix" (build_command env t).audio_stream = false := by
  have hno : needs_overlay t = true := stackActive_needs_overlay hst
  refine ⟨?_, ?_, usesFilter_amix_audio env t⟩
  · have hok : (build_command env t).output_kwargs = overlay_output_kwargs t := by
      unfold build_command
      rw [hno]
      rfl
    rw [hok]
    exact overlay_kwargs_t t hst hd
  · have hb1 : (build_command env t).audio_stream =
        (concatStage env t
          (videoOverlayStage env t (imageOverlayStage env t (mainVideoFilters env t
            (backgroundStage env t (.vinput t.input_path (input_kwargs t))))),
           apply_audio_filters t (.ainput t.input_path (input_kwargs t)))).2 := by
      unfold build_command
      rw [hno, if_pos rfl]
      rw [build_with_overlay_audio, stackStage_snd]
    by_cases h2 : needs_overlay { t with stack_settings := none } = true
    · have hb2 : (build_command env { t with stack_settings := none }).audio_stream =
          (concatStage env { t with stack_settings := none }
            (videoOverlayStage env { t with stack_settings := none }
              (imageOverlayStage env { t with stack_settings := none }
                (mainVideoFilters env { t with stack_settings := none }
                  (backgroundStage env { t with stack_settings := none }
                    (.vinput t.input_path (input_kwargs t))))),
             apply_audio_filters t (.ainput t.input_path (input_kwargs t)))).2 := by
        unfold build_command
        rw [h2, if_pos rfl]
        rw [build_with_overlay_audio, stackStage_snd]
        rfl
      rw [hb1, hb2]
      rfl
    · have hb2 : (build_command env { t with stack_settings := none }).audio_stream =
          apply_audio_filters t (.ainput t.input_path (input_kwargs t)) := by
        unfold build_command
        rw [show needs_overlay { t with stack_settings := none } = false from
          Bool.not_eq_true _ ▸ h2]
        rfl
      have hflags : ovEnabled t.intro_video = false ∧ ovEnabled t.outro_video = false := by
        have : needs_overlay { t with stack_settings := none } = false :=
          Bool.not_eq_true _ ▸ h2
        unfold needs_overlay at this
        simp only [Bool.or_eq_false_iff] at this
        tauto
      rw [hb1, hb2]
      unfold concatStage
      rw [introStreams_none env t hflags.1, outroStreams_none env t hflags.2]

/-- C4 witness task: untrimmed 10-second video with single-file
hstack. -/
def c4Task : VideoTask :=
  { input_path := "in.mp4", output_path := "o/out.mp4", duration := 10,
    stack_settings := some { mode := "hstack", type := "file", path := "side.mp4" } }

/-- Witness for C4: the 10-second hstack task gets `-t 10` and its
audio equals the no-stacking audio with no amix filter. -/
theorem stacking_clamp_and_audio_witness :
    lookupKw (build_command pureEnv c4Task).output_kwargs "t" = some (.num 10)
    ∧ usesFilter "amix" (build_command pureEnv c4Task).audio_stream = false := by
  have h := stacking_clamp_and_audio pureEnv c4Task rfl
    (by norm_num [effective_duration, c4Task, qTruthy])
  refine ⟨?_, h.2.2⟩
  have he : effective_duration c4Task = 10 := by
    norm_num [effective_duration, c4Task, qTruthy]
  rw [← he]
  exact h.1

/-! ## C8: missing split output is a hard error -/

/-- A successful `_execute_command` ran with exit 0 and left the
output file on disk. -/
theorem execute_command_ok {env : Env} {cmd : List String} {p : String}
    (h : execute_command env cmd p = .ok ()) :
    env.run_exit_code cmd = 0 ∧ env.path_exists p = true := by
  unfold execute_command at h
  split_ifs at h with h1 h2
  all_goals try exact Except.noConfusion h
  exact ⟨by simpa using h1, h2⟩

/-- If the by-count loop succeeds, it produced exactly the expected
part paths and each of them exists. -/
theorem splitByCountLoop_ok (env : Env) (ip od pat : String) (sc : Bool) :
    ∀ (pts : List (ℚ × ℚ)) (i : Nat) (acc files : List String),
    splitByCountLoop env ip od pat sc pts i acc = .ok files →
    files = acc.reverse ++
      (List.range pts.length).map (fun k => partOutputPath ip od pat (i + k))
    ∧ ∀ k < pts.length, env.path_exists (partOutputPath ip od pat (i + k)) = true := by
  intro pts
  induction pts with
  | nil =>
      intro i acc files h
      unfold splitByCountLoop at h
      refine ⟨?_, fun k hk => by simp at hk⟩
      simp only [Except.ok.injEq] at h
      rw [← h]
      simp
  | cons p rest ih =>
      intro i acc files h
      obtain ⟨st, len⟩ := p
      unfold splitByCountLoop at h
      cases hexec : execute_command env
          (build_split_command ip (partOutputPath ip od pat i) st len sc)
          (partOutputPath ip od pat i) with
      | error e =>
          rw [hexec] at h
          exact Except.noConfusion h
      | ok u =>
          rw [hexec] at h
          obtain ⟨hf, hall⟩ := ih (i + 1) (partOutputPath ip od pat i :: acc) files h
          obtain ⟨hrun, hex⟩ := execute_command_ok (by cases u; exact hexec)
          have hmap : List.map (fun k => partOutputPath ip od pat (i + k))
              (List.range (rest.length + 1)) =
              partOutputPath ip od pat i ::
                List.map (fun k => partOutputPath ip od pat (i + 1 + k))
                  (List.range rest.length) := by
            rw [List.range_succ_eq_map, List.map_cons, List.map_map]
            have hfun : ((fun k => partOutputPath ip od pat (i + k)) ∘ Nat.succ)
                = (fun k => partOutputPath ip od pat (i + 1 + k)) := by
              funext k
              simp only [Function.comp]
              congr 1
              omega
            rw [hfun]
            simp
          constructor
          · rw [hf, List.length_cons, hmap, List.reverse_cons]
            simp [List.append_assoc]
          · intro k hk
            cases k with
            | zero => simpa using hex
            | succ m =>
                have := hall m (by simpa using hk)
                have harith : i + 1 + m = i + (m + 1) := by omega
                rwa [harith] at this
/-- If `_split_by_count` succeeds, the part files are the expected
ones and all of them exist. -/
theorem split_by_count_parts (env : Env) (ip od : String) (n : Nat) (dur : ℚ)
    (pat : String) (sc : Bool) (files : List String)
    (h : split_by_count env ip od n dur pat sc = .ok files) :
    files = (List.range n).map (fun k => partOutputPath ip od pat (1 + k))
    ∧ ∀ k < n, env.path_exists (partOutputPath ip od pat (1 + k)) = true := by
  have hlen : (splitPoints n dur).length = n := by
    unfold splitPoints
    rw [List.length_map, List.length_range]
  obtain ⟨hf, hall⟩ := splitByCountLoop_ok env ip od pat sc (splitPoints n dur) 1 [] files h
  rw [hlen] at hf hall
  exact ⟨by simpa using hf, hall⟩

/-- C8: in by-count split mode, if any expected part file is missing
after its sub-command completes (in particular when the sub-command
exited 0), the split pipeline yields a hard error, the worker reports
the task as failed, and the queue marks the task Error — never Done. -/
theorem split_missing_part_fails (env : Env) (t : VideoTask) (s : SplitSettings)
    (hs : t.split_settings = some s) (he : s.enabled = true)
    (hm : s.mode = .by_count) (hv : s.validate.1 = true)
    (hin : env.path_exists t.input_path = true) (hd : 0 < t.duration)
    (j : Nat) (hj1 : 1 ≤ j) (hjn : j ≤ s.num_parts.toNat)
    (hmiss : env.path_exists
      (partOutputPath t.input_path (parentDir t.output_path) s.output_pattern j)
        = false) :
    (∃ e, split_video env t = .error e)
    ∧ (∃ msg, process_split_task env t = (.failed msg, []))
    ∧ (task_after_worker t (process_split_task env t).1).status = .error
    ∧ (task_after_worker t (process_split_task env t).1).status ≠ .done := by
  have hnd : ¬ t.duration ≤ 0 := not_le.mpr hd
  have hsv : ∃ e, split_video env t = .error e := by
    cases hres : split_video env t with
    | error e => exact ⟨e, rfl⟩
    | ok files =>
        have hsv1 : split_video env t = split_video_settings env t s := by
          unfold split_video
          rw [hs]
        rw [hsv1] at hres
        unfold split_video_settings at hres
        rw [if_neg (show ¬ ((! s.enabled) = true) from by simp [he]),
          if_neg (show ¬ ((! s.validate.1) = true) from by simp [hv]),
          if_neg hnd] at hres
        rw [show (match (some t.duration : Option ℚ) with
            | none => (.error "ffprobe failed" : Except String (List String))
            | some dur => split_video_mode env t s dur)
            = split_video_mode env t s t.duration from rfl] at hres
        unfold split_video_mode at hres
        rw [if_pos hm] at hres
        obtain ⟨_, hall⟩ := split_by_count_parts env t.input_path
          (parentDir t.output_path) s.num_parts.toNat t.duration
          s.output_pattern s.use_stream_copy files hres
        have := hall (j - 1) (by omega)
        rw [show 1 + (j - 1) = j from by omega] at this
        rw [this] at hmiss
        exact Bool.noConfusion hmiss
  obtain ⟨e, he2⟩ := hsv
  have hval : splitter_validate_task env t = (true, "") := by
    have h1 : splitter_validate_task env t =
        (if ! s.enabled then (false, "Split not enabled")
         else if ¬ env.path_exists t.input_path then
           (false, "Input file not found: " ++ t.input_path)
         else if ! s.validate.1 then (false, s.validate.2)
         else (true, "")) := by
      unfold splitter_validate_task
      rw [hs]
    rw [h1, if_neg (show ¬ ((! s.enabled) = true) from by simp [he]),
      if_neg (show ¬ (¬ env.path_exists t.input_path = true) from by simp [hin]),
      if_neg (show ¬ ((! s.validate.1) = true) from by simp [hv])]
  have hp : process_split_task env t = (.failed ("Split failed: " ++ e), []) := by
    unfold process_split_task
    rw [hval]
    simp [he2]
  refine ⟨⟨e, he2⟩, ⟨_, hp⟩, ?_, ?_⟩
  · rw [hp]
    rfl
  · rw [hp]
    simp [task_after_worker, VideoTask.set_error]

/-- C8 witness environment: every path except the first part file
exists, and every subprocess exits 0. -/
def c8Env : Env :=
  { path_exists := fun p => ! (p = "o/in_part001.mp4"), listdir := fun _ => [],
    rand_choice := fun _ _ => "", probe_duration := fun _ => none,
    default_font := none, run_exit_code := fun _ => 0, run_stderr := fun _ => "" }

/-- C8 witness task: split a 10-second video into 2 parts. -/
def c8Task : VideoTask :=
  { input_path := "in.mp4", output_path := "o/out.mp4", duration := 10,
    split_settings := some { enabled := true, mode := .by_count, num_parts := 2 } }

/-- Witness for C8: with part 1 missing after a zero-exit sub-command,
the task ends in Error, not Done. -/
theorem split_missing_part_fails_witness :
    (task_after_worker c8Task (process_split_task c8Env c8Task).1).status
      = TaskStatus.error ∧ c8Env.run_exit_code [] = 0 := by
  refine ⟨?_, rfl⟩
  exact (split_missing_part_fails c8Env c8Task _ rfl rfl rfl (by decide)
    (by decide) (by norm_num [c8Task]) 1 (by norm_num) (by decide) (by decide)).2.2.1

/-! ## C3: purity of `build_command`

The builder consults the environment for path existence and the
default-font lookup throughout; the folder-stacking branch additionally
consults the directory listing, the RNG and the media prober.  The
lemmas below show each stage depends on the environment only through
`path_exists` and `default_font` — except folder stacking. -/

/-- Stacking from a random folder is enabled. -/
def folderStackActive (t : VideoTask) : Bool :=
  match t.stack_settings with
  | some ss => ss.mode ≠ "" && ss.type = "folder"
  | none => false

/-- `_get_drawtext_args` reads only path existence and the default
font. -/
theorem get_drawtext_args_env {e1 e2 : Env} (hp : e1.path_exists = e2.path_exists)
    (hf : e1.default_font = e2.default_font) (ts : TextSettings) (t : VideoTask) :
    get_drawtext_args e1 ts t = get_drawtext_args e2 ts t := by
  unfold get_drawtext_args
  rw [hp, hf]

/-- The drawtext step reads only path existence and the default font. -/
theorem textStage_env {e1 e2 : Env} (hp : e1.path_exists = e2.path_exists)
    (hf : e1.default_font = e2.default_font) (t : VideoTask) (sk : Bool) (s : SExpr) :
    textStage e1 t sk s = textStage e2 t sk s := by
  unfold textStage
  simp only [get_drawtext_args_env hp hf]

/-- The standard video filter chain reads only path existence and the
default font. -/
theorem apply_video_filters_env {e1 e2 : Env} (hp : e1.path_exists = e2.path_exists)
    (hf : e1.default_font = e2.default_font) (t : VideoTask) (sk : Bool) (s : SExpr) :
    apply_video_filters e1 t sk s = apply_video_filters e2 t sk s := by
  unfold apply_video_filters
  rw [textStage_env hp hf]

/-- The background layer reads only path existence. -/
theorem backgroundLayer_env {e1 e2 : Env} (hp : e1.path_exists = e2.path_exists)
    (t : VideoTask) (bf : BackgroundFrame) :
    backgroundLayer e1 t bf = backgroundLayer e2 t bf := by
  unfold backgroundLayer
  rw [hp]

/-- The background stage reads only path existence. -/
theorem backgroundStage_env {e1 e2 : Env} (hp : e1.path_exists = e2.path_exists)
    (t : VideoTask) (v : SExpr) :
    backgroundStage e1 t v = backgroundStage e2 t v := by
  unfold backgroundStage
  simp only [backgroundLayer_env hp]

/-- The main-stream filters read only path existence and the default
font. -/
theorem mainVideoFilters_env {e1 e2 : Env} (hp : e1.path_exists = e2.path_exists)
    (hf : e1.default_font = e2.default_font) (t : VideoTask) (v : SExpr) :
    mainVideoFilters e1 t v = mainVideoFilters e2 t v := by
  unfold mainVideoFilters
  rw [textStage_env hp hf, apply_video_filters_env hp hf]

/-- The image-overlay stage reads only path existence. -/
theorem imageOverlayStage_env {e1 e2 : Env} (hp : e1.path_exists = e2.path_exists)
    (t : VideoTask) (v : SExpr) :
    imageOverlayStage e1 t v = imageOverlayStage e2 t v := by
  unfold imageOverlayStage
  rw [hp]

/-- The video-overlay stage reads only path existence. -/
theorem videoOverlayStage_env {e1 e2 : Env} (hp : e1.path_exists = e2.path_exists)
    (t : VideoTask) (v : SExpr) :
    videoOverlayStage e1 t v = videoOverlayStage e2 t v := by
  unfold videoOverlayStage
  rw [hp]

/-- The intro block reads only path existence. -/
theorem introStreams_env {e1 e2 : Env} (hp : e1.path_exists = e2.path_exists)
    (t : VideoTask) : introStreams e1 t = introStreams e2 t := by
  unfold introStreams
  rw [hp]

/-- The outro block reads only path existence. -/
theorem outroStreams_env {e1 e2 : Env} (hp : e1.path_exists = e2.path_exists)
    (t : VideoTask) : outroStreams e1 t = outroStreams e2 t := by
  unfold outroStreams
  rw [hp]

/-- The concat block reads only path existence. -/
theorem concatStage_env {e1 e2 : Env} (hp : e1.path_exists = e2.path_exists)
    (t : VideoTask) (va : SExpr × SExpr) :
    concatStage e1 t va = concatStage e2 t va := by
  unfold concatStage
  rw [introStreams_env hp, outroStreams_env hp]

/-- Without folder sourcing, the stack source reads only path
existence. -/
theorem stackSource_env {e1 e2 : Env} (hp : e1.path_exists = e2.path_exists)
    (t : VideoTask) (ss : StackSettings) (htype : ss.type ≠ "folder") :
    stackSource e1 t ss = stackSource e2 t ss := by
  unfold stackSource
  by_cases h1 : ss.type = "file"
  · simp [h1, hp]
  · rw [if_neg h1, if_neg h1, if_neg htype, if_neg htype]

/-- Without folder sourcing, the stacking stage reads only path
existence. -/
theorem stackStage_env {e1 e2 : Env} (hp : e1.path_exists = e2.path_exists)
    (t : VideoTask) (hfs : folderStackActive t = false) (va : SExpr × SExpr) :
    stackStage e1 t va = stackStage e2 t va := by
  cases hss : t.stack_settings with
  | none =>
      unfold stackStage
      rw [hss]
  | some ss =>
      have hch : ∀ e : Env, stackStage e t va =
          (if ss.mode ≠ "" then
            (match stackSource e t ss with
              | some st =>
                let wh := stackBaseRes t
                if ss.mode = "hstack" then
                  (va.1.hstacked (SExpr.filt "scale" [KwVal.int (-1), KwVal.int wh.2] [] st), va.2)
                else if ss.mode = "vstack" then
                  (va.1.vstacked (SExpr.filt "scale" [KwVal.int wh.1, KwVal.int (-1)] [] st), va.2)
                else va
              | none => va)
          else va) := by
        intro e
        unfold stackStage
        rw [hss]
      rw [hch e1, hch e2]
      by_cases hmode : ss.mode = ""
      · simp [hmode]
      · have hb : folderStackActive t =
            (decide (ss.mode ≠ "") && decide (ss.type = "folder")) := by
          unfold folderStackActive
          rw [hss]
        rw [hb, decide_eq_true (show ss.mode ≠ "" from hmode), Bool.true_and] at hfs
        have htype : ss.type ≠ "folder" := of_decide_eq_false hfs
        rw [stackSource_env hp t ss htype]

/-- The standard pipeline reads only path existence and the default
font. -/
theorem build_standard_env {e1 e2 : Env} (hp : e1.path_exists = e2.path_exists)
    (hf : e1.default_font = e2.default_font) (t : VideoTask) :
    build_standard e1 t = build_standard e2 t := by
  unfold build_standard
  simp only [apply_video_filters_env hp hf]

/-- Without folder stacking, the complex pipeline reads only path
existence and the default font. -/
theorem build_with_overlay_env {e1 e2 : Env} (hp : e1.path_exists = e2.path_exists)
    (hf : e1.default_font = e2.default_font) (t : VideoTask)
    (hfs : folderStackActive t = false) :
    build_with_overlay e1 t = build_with_overlay e2 t := by
  unfold build_with_overlay
  simp only [backgroundStage_env hp, mainVideoFilters_env hp hf,
    imageOverlayStage_env hp, videoOverlayStage_env hp, concatStage_env hp,
    stackStage_env hp t hfs]

/-- C3 (amended): `build_command` is a pure function of the task, the
path-existence facts and the default-font lookup for every task whose
stacking source is not a folder; the folder-stacking branch draws from
the RNG, lists the folder and probes media durations, so two calls can
differ there even on an unchanged filesystem. -/
theorem build_command_env_independent (t : VideoTask) (e1 e2 : Env)
    (hp : e1.path_exists = e2.path_exists)
    (hf : e1.default_font = e2.default_font)
    (hfs : folderStackActive t = false) :
    build_command e1 t = build_command e2 t := by
  unfold build_command
  split_ifs
  · exact build_with_overlay_env hp hf t hfs
  · exact build_standard_env hp hf t

/-- A second environment for the C3 witness: same path-existence and
default-font answers as `pureEnv`, different RNG and prober. -/
def pureEnv2 : Env :=
  { path_exists := fun _ => true, listdir := fun _ => ["x.mp4"],
    rand_choice := fun _ fs => fs.getD 0 "z", probe_duration := fun _ => some 7,
    default_font := none, run_exit_code := fun _ => 1, run_stderr := fun _ => "e" }

/-- Witness for the amended C3: a single-file-stacking task builds the
same command under two environments that agree on path existence and
the default font. -/
theorem build_command_env_independent_witness :
    build_command pureEnv c4Task = build_command pureEnv2 c4Task := by
  exact build_command_env_independent c4Task pureEnv pureEnv2 rfl rfl rfl

/-- The C3 counterexample task: folder-sourced hstack on a 3-second
video. -/
def cexTask : VideoTask :=
  { input_path := "in.mp4", output_path := "o/out.mp4", duration := 3,
    stack_settings := some { mode := "hstack", type := "folder", path := "clips" } }

/-- First counterexample environment: the RNG draws the first clip. -/
def cexEnv1 : Env :=
  { path_exists := fun _ => true, listdir := fun _ => ["a.mp4", "b.mp4"],
    rand_choice := fun _ fs => fs.headD "", probe_duration := fun _ => some 5,
    default_font := none, run_exit_code := fun _ => 0, run_stderr := fun _ => "" }

/-- Second counterexample environment: identical path existence and
default font, but the RNG draws the second clip. -/
def cexEnv2 : Env := { cexEnv1 with rand_choice := fun _ fs => fs.getD 1 "" }

/-- The video stream of `_build_with_overlay`, spelled out. -/
theorem build_with_overlay_video (env : Env) (t : VideoTask) :
    (build_with_overlay env t).video_stream =
      (stackStage env t (concatStage env t
        (videoOverlayStage env t (imageOverlayStage env t (mainVideoFilters env t
          (backgroundStage env t (.vinput t.input_path (input_kwargs t))))),
         apply_audio_filters t (.ainput t.input_path (input_kwargs t))))).1 := rfl

/-- The folder-selection loop stops once the accumulated duration
reaches the target. -/
theorem pickLoop_stop (env : Env) (files : List String) (target : ℚ)
    (fuel k : Nat) (cur : ℚ) (acc : List String) (h : ¬ cur < target) :
    pickLoop env files target (fuel + 1) k cur acc = acc.reverse := by
  unfold pickLoop
  rw [if_neg h]

/-- One successful draw of the folder-selection loop. -/
theorem pickLoop_take (env : Env) (files : List String) (target : ℚ)
    (fuel k : Nat) (cur : ℚ) (acc : List String) (d : ℚ) (h : cur < target)
    (hd : env.probe_duration (env.rand_choice k files) = some d) (hpos : 0 < d) :
    pickLoop env files target (fuel + 1) k cur acc =
      pickLoop env files target fuel (k + 1) (cur + d)
        (env.rand_choice k files :: acc) := by
  conv_lhs => unfold pickLoop
  rw [if_pos h]
  simp only [hd]
  rw [if_pos hpos]

/-- Stacking source of the counterexample task: the listed folder has
two clips, the first RNG draw already covers the 3-second target, so
the source is the single drawn clip. -/
theorem stackSource_cex (e : Env) (f : String)
    (hpe : e.path_exists "clips" = true)
    (hld : e.listdir "clips" = ["a.mp4", "b.mp4"])
    (hrc : e.rand_choice 0 ["a.mp4", "b.mp4"] = f)
    (hpd : e.probe_duration f = some 5) :
    stackSource e cexTask ⟨"hstack", "folder", "clips"⟩ =
      some (.vinput f []) := by
  have htgt : max ((1:ℚ)/10) (effective_duration cexTask) = 3 := by
    have hed : effective_duration cexTask = 3 := rfl
    rw [hed]
    exact max_eq_right (by norm_num)
  have hfilt : List.filter (fun g => video_exts.contains (strToLower (path_suffix g)))
      ["a.mp4", "b.mp4"] = ["a.mp4", "b.mp4"] := by decide
  have hpick : pickStackFiles e ["a.mp4", "b.mp4"] 3 = [f] := by
    show pickLoop e ["a.mp4", "b.mp4"] 3 (13 + 1) 0 0 [] = [f]
    rw [pickLoop_take e ["a.mp4", "b.mp4"] 3 13 0 0 [] 5 (by norm_num)
      (by rw [hrc]; exact hpd) (by norm_num)]
    rw [hrc]
    show pickLoop e ["a.mp4", "b.mp4"] 3 (12 + 1) 1 (0 + 5) [f] = [f]
    rw [pickLoop_stop e ["a.mp4", "b.mp4"] 3 12 1 (0 + 5) [f] (by norm_num)]
    rfl
  unfold stackSource
  rw [if_neg (show ¬ ((⟨"hstack", "folder", "clips"⟩ : StackSettings).type = "file")
    from by decide)]
  rw [if_pos (show (⟨"hstack", "folder", "clips"⟩ : StackSettings).type = "folder"
    from rfl)]
  rw [if_pos (show (⟨"hstack", "folder", "clips"⟩ : StackSettings).path ≠ "" ∧
    e.path_exists (⟨"hstack", "folder", "clips"⟩ : StackSettings).path = true
    from ⟨by decide, hpe⟩)]
  simp only [show (⟨"hstack", "folder", "clips"⟩ : StackSettings).path = "clips"
    from rfl, hld, hfilt, htgt, hpick]
  rfl

/-- The stacking stage of the counterexample task hstacks the drawn
clip, scaled to the default 1080 height, onto the main video. -/
theorem stackStage_cex (e : Env) (f : String)
    (hsrc : stackSource e cexTask ⟨"hstack", "folder", "clips"⟩ =
      some (.vinput f [])) (va : SExpr × SExpr) :
    stackStage e cexTask va =
      (.hstacked va.1 (.filt "scale" [.int (-1), .int 1080] [] (.vinput f [])),
       va.2) := by
  have hss : cexTask.stack_settings = some ⟨"hstack", "folder", "clips"⟩ := rfl
  unfold stackStage
  rw [hss]
  simp only [hsrc, show stackBaseRes cexTask = (1920, 1080) from rfl]
  rw [if_pos (show ("hstack" : String) ≠ "" from by decide), if_pos trivial]

/-- C3 counterexample: on a folder-stacking task, two calls under
environments with identical path-existence facts (an unchanged
filesystem) and identical font lookups produce different commands,
because the builder consults the RNG and the media prober during
command construction. -/
theorem build_command_uses_randomness :
    cexEnv1.path_exists = cexEnv2.path_exists ∧
    cexEnv1.default_font = cexEnv2.default_font ∧
    build_command cexEnv1 cexTask ≠ build_command cexEnv2 cexTask := by
  refine ⟨rfl, rfl, ?_⟩
  intro h
  have h2 := congrArg BuiltCommand.video_stream h
  have hbc : ∀ ee : Env, (build_command ee cexTask).video_stream =
      (stackStage ee cexTask (concatStage ee cexTask
        (videoOverlayStage ee cexTask (imageOverlayStage ee cexTask
          (mainVideoFilters ee cexTask (backgroundStage ee cexTask
            (.vinput "in.mp4" (input_kwargs cexTask))))),
         apply_audio_filters cexTask (.ainput "in.mp4" (input_kwargs cexTask))))).1 :=
    fun ee => rfl
  rw [hbc cexEnv1, hbc cexEnv2] at h2
  rw [@backgroundStage_env cexEnv1 cexEnv2 rfl cexTask] at h2
  rw [@mainVideoFilters_env cexEnv1 cexEnv2 rfl rfl cexTask] at h2
  rw [@imageOverlayStage_env cexEnv1 cexEnv2 rfl cexTask] at h2
  rw [@videoOverlayStage_env cexEnv1 cexEnv2 rfl cexTask] at h2
  rw [@concatStage_env cexEnv1 cexEnv2 rfl cexTask] at h2
  rw [stackStage_cex cexEnv1 "a.mp4" (stackSource_cex cexEnv1 "a.mp4" rfl rfl rfl rfl)] at h2
  rw [stackStage_cex cexEnv2 "b.mp4" (stackSource_cex cexEnv2 "b.mp4" rfl rfl rfl rfl)] at h2
  simp at h2

end BatchVideoEditor
